import Mathlib

/-!
Shallow embedding of the `routeboxer` Go package (files `rhumb.go` and the
RouteBoxer core) together with the parts of its dependency `go.geo` that the
package uses.  Floating point numbers are idealised as real numbers; Go's
`math.Remainder` is modelled as the exact IEEE remainder over ℝ (the
nearest-integer multiple is taken with Mathlib's `round`; no tie case occurs in
any instance evaluated below).  Go panics (out-of-range slice indexing) are not
part of a function's value: grids are modelled as total functions over ℤ and
out-of-range accesses are reasoned about through explicit index/bounds
predicates, or through `Option` where a whole computation aborts.
-/

open Real

open scoped Classical

noncomputable section

namespace Routeboxer

/-- Geographic point, as in go.geo: a (longitude, latitude) pair of degrees. -/
structure Point where
  lng : ℝ
  lat : ℝ
deriving DecidableEq

/-- Axis-aligned rectangle with southwest and northeast corners (go.geo `Bound`). -/
structure Bound where
  sw : Point
  ne : Point
deriving DecidableEq

/-- go.geo `Bound.Extend`: grow the bound to include a point (componentwise min/max). -/
def extendB (b : Bound) (p : Point) : Bound :=
  ⟨⟨min b.sw.lng p.lng, min b.sw.lat p.lat⟩, ⟨max b.ne.lng p.lng, max b.ne.lat p.lat⟩⟩

/-- go.geo `NewBoundFromPoints`: bound from two opposite corners, normalised. -/
def boundFromPoints (a b : Point) : Bound :=
  ⟨⟨min a.lng b.lng, min a.lat b.lat⟩, ⟨max a.lng b.lng, max a.lat b.lat⟩⟩

/-- go.geo `PointSet.Bound()`: bounding box of a list of points (min/max fold);
the empty case yields the zero bound, mirroring go.geo's `NewBound(0,0,0,0)`. -/
def pointSetBound (pts : List Point) : Bound :=
  match pts with
  | [] => ⟨⟨0, 0⟩, ⟨0, 0⟩⟩
  | p :: rest => rest.foldl extendB ⟨p, p⟩

/-- go.geo `Bound.Center()`. -/
def boundCenter (b : Bound) : Point :=
  ⟨(b.sw.lng + b.ne.lng) / 2, (b.sw.lat + b.ne.lat) / 2⟩

/-- go.geo `EarthRadius` (meters). -/
def earthRadius : ℝ := 6378137

/-- `deg2rad` from rhumb.go. -/
def deg2rad (d : ℝ) : ℝ := d * π / 180

/-- `rad2deg` from rhumb.go. -/
def rad2deg (r : ℝ) : ℝ := 180 * r / π

/-- Go `math.Remainder x y`: x minus the nearest-integer multiple of y. -/
def remainder (x y : ℝ) : ℝ := x - y * (round (x / y) : ℤ)

/-- Go `math.Atan2 y x`. -/
def atan2 (y x : ℝ) : ℝ :=
  if 0 < x then arctan (y / x)
  else if x < 0 then (if 0 ≤ y then arctan (y / x) + π else arctan (y / x) - π)
  else if 0 < y then π / 2
  else if y < 0 then -(π / 2)
  else 0

/-- `RhumbDestinationPoint` from rhumb.go, transliterated line by line
(including the modulus expression `(2*π) - π` of its final longitude
reduction, exactly as written in the source). -/
def RhumbDestinationPoint (currentPoint : Point) (brng dist : ℝ) : Point :=
  let d := dist / earthRadius
  let lat1 := deg2rad currentPoint.lat
  let lon1 := deg2rad currentPoint.lng
  let brngR := deg2rad brng
  let dLat0 := d * Real.cos brngR
  let dLat := if |dLat0| < 1e-10 then 0 else dLat0
  let lat2 := lat1 + dLat
  let dPhi := Real.log (Real.tan (lat2 / 2 + π / 4) / Real.tan (lat1 / 2 + π / 4))
  let q := if dPhi ≠ 0 then dLat / dPhi else Real.cos lat1
  let dLon := d * Real.sin brngR / q
  let lat2r := if |lat2| > π / 2 then (if 0 < lat2 then π - lat2 else -π - lat2) else lat2
  let lon2 := remainder (lon1 + dLon + 3 * π) ((2 * π) - π)
  ⟨rad2deg lon2, rad2deg lat2r⟩

/-- `RhumBearingTo` from rhumb.go. -/
def RhumBearingTo (point dest : Point) : ℝ :=
  let dLon0 := deg2rad (dest.lng - point.lng)
  let dPhi := Real.log (Real.tan (deg2rad dest.lat / 2 + π / 4) /
    Real.tan (deg2rad point.lat / 2 + π / 4))
  let dLon := if |dLon0| > π then (if 0 < dLon0 then -(2 * π - dLon0) else 2 * π + dLon0)
    else dLon0
  remainder (rad2deg (atan2 dLon dPhi) + 360) 360

/-- The `RouteBoxer` struct.  The coverage grid is modelled as a total boolean
function over ℤ × ℤ (Go allocates a `[][]int`); its allocated dimensions are
kept in `gridW`/`gridH` so that out-of-range accesses can be talked about. -/
structure RouteBoxer where
  distanceRange : ℝ
  vertices : List Point
  latGrid : List ℝ
  lngGrid : List ℝ
  grid : ℤ → ℤ → Bool
  gridW : ℕ
  gridH : ℕ
  boxesX : List Bound
  boxesY : List Bound

/-- `NewRouteBoxer`: plain construction, no validation of any input. -/
def NewRouteBoxer (distanceRange : ℝ) (vertices : List Point) : RouteBoxer :=
  ⟨distanceRange, vertices, [], [], fun _ _ => false, 0, 0, [], []⟩

/-- Read a grid line list at a (possibly negative) index; out of range gives a
junk value 0 (the Go code panics there; every evaluation below stays in range). -/
def lineAt (l : List ℝ) (i : ℤ) : ℝ :=
  if 0 ≤ i ∧ i < l.length then l.getD i.toNat 0 else 0

/-- buildGrid's northward loop: `for i := 2; latGrid[i-2] < NE.lat; i++`, each
iteration appending `RhumbDestinationPoint(center, 0, range*i).Lat()`.  Indexing
is absolute into the accumulated list, exactly as in the Go slice.  `fuel`
bounds the number of iterations modelled (the Go loop is unbounded). -/
def growNorth (c : Point) (range ne : ℝ) : ℕ → ℕ → List ℝ → List ℝ
  | 0, _, acc => acc
  | fuel + 1, i, acc =>
    if acc.getD (i - 2) 0 < ne then
      growNorth c range ne fuel (i + 1)
        (acc ++ [(RhumbDestinationPoint c 0 (range * (i : ℝ))).lat])
    else acc

/-- buildGrid's southward loop: `for i1 := 1; latGrid[1] > SW.lat; i1++`,
prepending `RhumbDestinationPoint(center, 180, range*i1).Lat()`. -/
def growSouth (c : Point) (range sw : ℝ) : ℕ → ℕ → List ℝ → List ℝ
  | 0, _, acc => acc
  | fuel + 1, i1, acc =>
    if sw < acc.getD 1 0 then
      growSouth c range sw fuel (i1 + 1)
        ((RhumbDestinationPoint c 180 (range * (i1 : ℝ))).lat :: acc)
    else acc

/-- buildGrid's eastward loop (longitudes, bearing 90). -/
def growEast (c : Point) (range ne : ℝ) : ℕ → ℕ → List ℝ → List ℝ
  | 0, _, acc => acc
  | fuel + 1, i2, acc =>
    if acc.getD (i2 - 2) 0 < ne then
      growEast c range ne fuel (i2 + 1)
        (acc ++ [(RhumbDestinationPoint c 90 (range * (i2 : ℝ))).lng])
    else acc

/-- buildGrid's westward loop (longitudes, bearing 270). -/
def growWest (c : Point) (range sw : ℝ) : ℕ → ℕ → List ℝ → List ℝ
  | 0, _, acc => acc
  | fuel + 1, i3, acc =>
    if sw < acc.getD 1 0 then
      growWest c range sw fuel (i3 + 1)
        ((RhumbDestinationPoint c 270 (range * (i3 : ℝ))).lng :: acc)
    else acc

/-- `buildGrid`: appends the centre line and first north/east line to the
existing (usually empty) grids, runs the four growth loops, and reallocates the
coverage grid from the resulting line counts. -/
def buildGrid (fuel : ℕ) (r : RouteBoxer) : RouteBoxer :=
  let routeBounds := pointSetBound r.vertices
  let c := boundCenter routeBounds
  let lat1 := r.latGrid ++ [c.lat, (RhumbDestinationPoint c 0 r.distanceRange).lat]
  let lat2 := growNorth c r.distanceRange routeBounds.ne.lat fuel 2 lat1
  let lat3 := growSouth c r.distanceRange routeBounds.sw.lat fuel 1 lat2
  let lng1 := r.lngGrid ++ [c.lng, (RhumbDestinationPoint c 90 r.distanceRange).lng]
  let lng2 := growEast c r.distanceRange routeBounds.ne.lng fuel 2 lng1
  let lng3 := growWest c r.distanceRange routeBounds.sw.lng fuel 1 lng2
  { r with latGrid := lat3, lngGrid := lng3,
           grid := fun _ _ => false, gridW := lng3.length, gridH := lat3.length }

/-- Count of leading grid lines strictly below `v`: models the brute force scan
`for x = 0; grid[x] < v; x++` of `getCellCoords` (which then uses `x - 1`). -/
def scanGE : List ℝ → ℝ → ℕ
  | [], _ => 0
  | a :: l, v => if a < v then scanGE l v + 1 else 0

/-- `getCellCoords`: brute force cell location of a vertex. -/
def getCellCoords (r : RouteBoxer) (latlng : Point) : ℤ × ℤ :=
  ((scanGE r.lngGrid latlng.lng : ℤ) - 1, (scanGE r.latGrid latlng.lat : ℤ) - 1)

/-- Forward hint scan `for x = hint; grid[x+1] < v; x++`. -/
def scanFwd (lines : List ℝ) (v : ℝ) : ℕ → ℤ → ℤ
  | 0, x => x
  | fuel + 1, x => if lineAt lines (x + 1) < v then scanFwd lines v fuel (x + 1) else x

/-- Backward hint scan `for x = hint; grid[x] > v; x--`. -/
def scanBwd (lines : List ℝ) (v : ℝ) : ℕ → ℤ → ℤ
  | 0, x => x
  | fuel + 1, x => if v < lineAt lines x then scanBwd lines v fuel (x - 1) else x

/-- `getGridCoordsFromHint`: locate a vertex from the known cell of a nearby one. -/
def getGridCoordsFromHint (r : RouteBoxer) (latlng hintlatlng : Point) (hint : ℤ × ℤ) :
    ℤ × ℤ :=
  let x := if hintlatlng.lng < latlng.lng
    then scanFwd r.lngGrid latlng.lng (r.lngGrid.length + 2) hint.1
    else scanBwd r.lngGrid latlng.lng (r.lngGrid.length + 2) hint.1
  let y := if hintlatlng.lat < latlng.lat
    then scanFwd r.latGrid latlng.lat (r.latGrid.length + 2) hint.2
    else scanBwd r.latGrid latlng.lat (r.latGrid.length + 2) hint.2
  (x, y)

/-- `markCell`: set the cell and its 8 neighbours in the coverage grid. -/
def markCell (g : ℤ → ℤ → Bool) (cell : ℤ × ℤ) : ℤ → ℤ → Bool :=
  fun a b =>
    if cell.1 - 1 ≤ a ∧ a ≤ cell.1 + 1 ∧ cell.2 - 1 ≤ b ∧ b ≤ cell.2 + 1 then true
    else g a b

/-- The nine grid indices `markCell` writes, in program order. -/
def markCellWrites (cell : ℤ × ℤ) : List (ℤ × ℤ) :=
  [(cell.1 - 1, cell.2 - 1), (cell.1, cell.2 - 1), (cell.1 + 1, cell.2 - 1),
   (cell.1 - 1, cell.2), (cell.1, cell.2), (cell.1 + 1, cell.2),
   (cell.1 - 1, cell.2 + 1), (cell.1, cell.2 + 1), (cell.1 + 1, cell.2 + 1)]

/-- An index is inside the allocated coverage grid. -/
def indexInBounds (r : RouteBoxer) (idx : ℤ × ℤ) : Prop :=
  0 ≤ idx.1 ∧ idx.1 < (r.gridW : ℤ) ∧ 0 ≤ idx.2 ∧ idx.2 < (r.gridH : ℤ)

/-- Ascending half of `fillInGridSquares`: mark `count` cells from `x` rightwards. -/
def fillAsc (g : ℤ → ℤ → Bool) (y : ℤ) : ℕ → ℤ → ℤ → ℤ → Bool
  | 0, _ => g
  | n + 1, x => fillAsc (markCell g (x, y)) y n (x + 1)

/-- Descending half of `fillInGridSquares`. -/
def fillDesc (g : ℤ → ℤ → Bool) (y : ℤ) : ℕ → ℤ → ℤ → ℤ → Bool
  | 0, _ => g
  | n + 1, x => fillDesc (markCell g (x, y)) y n (x - 1)

/-- `fillInGridSquares`: mark all cells of row `y` between columns `startx` and
`endx` inclusive, in the direction the Go code walks them. -/
def fillInGridSquares (g : ℤ → ℤ → Bool) (startx endx y : ℤ) : ℤ → ℤ → Bool :=
  if startx < endx then fillAsc g y ((endx - startx).toNat + 1) startx
  else fillDesc g y ((startx - endx).toNat + 1) startx

/-- The rhumb distance `getGridIntersect` computes (Step 2 of the tracer):
`(EarthRadius/1000) * ((deg2rad(gridLineLat) - deg2rad(start.Lat())) / cos(deg2rad(brng)))`. -/
def getGridIntersectDist (start : Point) (brng gridLineLat : ℝ) : ℝ :=
  (earthRadius / 1000) * ((deg2rad gridLineLat - deg2rad start.lat) / Real.cos (deg2rad brng))

/-- `getGridIntersect`: the point where the segment from `start` with bearing
`brng` is deemed to cross the latitude grid line `gridLineLat`. -/
def getGridIntersect (start : Point) (brng gridLineLat : ℝ) : Point :=
  RhumbDestinationPoint start brng (getGridIntersectDist start brng gridLineLat)

/-- Northward loop of `getGridIntersects` (`end.Lat() > start.Lat()` branch):
iterate `i` over the grid rows, fill row `i-1` up to each crossing, and after
the loop fill the final row (the base case, entered with the current `i`). -/
def northTrace (r : RouteBoxer) (start : Point) (brng : ℝ) (endXY : ℤ × ℤ) :
    ℕ → Point → ℤ × ℤ → ℤ → (ℤ → ℤ → Bool) → ℤ → ℤ → Bool
  | 0, _, hintXY, i, g => fillInGridSquares g hintXY.1 endXY.1 (i - 1)
  | n + 1, hint, hintXY, i, g =>
    let edgePoint := getGridIntersect start brng (lineAt r.latGrid i)
    let edgeXY := getGridCoordsFromHint r edgePoint hint hintXY
    let g1 := fillInGridSquares g hintXY.1 edgeXY.1 (i - 1)
    northTrace r start brng endXY n edgePoint edgeXY (i + 1) g1

/-- Southward loop of `getGridIntersects` (fills row `i`, decrements `i`). -/
def southTrace (r : RouteBoxer) (start : Point) (brng : ℝ) (endXY : ℤ × ℤ) :
    ℕ → Point → ℤ × ℤ → ℤ → (ℤ → ℤ → Bool) → ℤ → ℤ → Bool
  | 0, _, hintXY, i, g => fillInGridSquares g hintXY.1 endXY.1 i
  | n + 1, hint, hintXY, i, g =>
    let edgePoint := getGridIntersect start brng (lineAt r.latGrid i)
    let edgeXY := getGridCoordsFromHint r edgePoint hint hintXY
    let g1 := fillInGridSquares g hintXY.1 edgeXY.1 i
    southTrace r start brng endXY n edgePoint edgeXY (i - 1) g1

/-- `getGridIntersects`: mark every cell a multi-cell segment passes through. -/
def getGridIntersects (r : RouteBoxer) (g : ℤ → ℤ → Bool) (start stop : Point)
    (startXY endXY : ℤ × ℤ) : ℤ → ℤ → Bool :=
  let brng := RhumBearingTo start stop
  if start.lat < stop.lat then
    northTrace r start brng endXY (endXY.2 - startXY.2).toNat start startXY (startXY.2 + 1) g
  else
    southTrace r start brng endXY (startXY.2 - endXY.2).toNat start startXY startXY.2 g

/-- One iteration of the vertex loop of `FindIntersectingCells`: locate the
vertex from the previous one, and mark (directly or via the tracer) unless it
is the same cell. -/
def viStep (r : RouteBoxer) (st : Point × (ℤ × ℤ) × (ℤ → ℤ → Bool)) (v : Point) :
    Point × (ℤ × ℤ) × (ℤ → ℤ → Bool) :=
  let prev := st.1
  let hintXY := st.2.1
  let g := st.2.2
  let gridXY := getGridCoordsFromHint r v prev hintXY
  if gridXY.1 = hintXY.1 ∧ gridXY.2 = hintXY.2 then (v, gridXY, g)
  else if (hintXY.1 - gridXY.1 = 1 ∧ hintXY.2 = gridXY.2) ∨
      (hintXY.1 = gridXY.1 ∧ hintXY.2 - gridXY.2 = 1) then
    (v, gridXY, markCell g gridXY)
  else
    (v, gridXY, getGridIntersects r g prev v hintXY gridXY)

/-- `FindIntersectingCells`.  On the empty route the Go code panics indexing
`vertices[0]`; that abort is modelled as `none`. -/
def FindIntersectingCells (r : RouteBoxer) : Option RouteBoxer :=
  match r.vertices with
  | [] => none
  | v0 :: rest =>
    let hintXY := getCellCoords r v0
    let g0 := markCell r.grid hintXY
    let st := rest.foldl (viStep r) (v0, hintXY, g0)
    some { r with grid := st.2.2 }

/-- `getCellBounds`: the geographic rectangle of a grid cell. -/
def getCellBounds (r : RouteBoxer) (cell : ℤ × ℤ) : Bound :=
  boundFromPoints ⟨lineAt r.lngGrid cell.1, lineAt r.latGrid cell.2⟩
    ⟨lineAt r.lngGrid (cell.1 + 1), lineAt r.latGrid (cell.2 + 1)⟩

/-- `mergeBoxesY`: merge a finished horizontal box into a vertically adjacent
accumulator box with (ε = 0.001) identical longitude span, else append it. -/
def mergeBoxesY : List Bound → Bound → List Bound
  | [], box => [box]
  | b :: rest, box =>
    if |b.ne.lat - box.sw.lat| < 0.001 ∧ |b.sw.lng - box.sw.lng| < 0.001 ∧
        |b.ne.lng - box.ne.lng| < 0.001 then
      extendB b box.ne :: rest
    else b :: mergeBoxesY rest box

/-- `mergeBoxesX`: the column-direction analogue of `mergeBoxesY`. -/
def mergeBoxesX : List Bound → Bound → List Bound
  | [], box => [box]
  | b :: rest, box =>
    if |b.ne.lng - box.sw.lng| < 0.001 ∧ |b.sw.lat - box.sw.lat| < 0.001 ∧
        |b.ne.lat - box.ne.lat| < 0.001 then
      extendB b box.ne :: rest
    else b :: mergeBoxesX rest box

/-- The Go methods take a possibly nil box; `none` is a no-op. -/
def mergeBoxesYOpt (acc : List Bound) : Option Bound → List Bound
  | none => acc
  | some box => mergeBoxesY acc box

def mergeBoxesXOpt (acc : List Bound) : Option Bound → List Bound
  | none => acc
  | some box => mergeBoxesX acc box

/-- Inner x-loop of the row pass of `mergeIntersectingCells`. -/
def rowScanX (r : RouteBoxer) (y : ℤ) : ℕ → ℤ → Option Bound × List Bound →
    Option Bound × List Bound
  | 0, _, s => s
  | n + 1, x, s =>
    if r.grid x y then
      match s.1 with
      | some cb => rowScanX r y n (x + 1) (some (extendB cb (getCellBounds r (x, y)).ne), s.2)
      | none => rowScanX r y n (x + 1) (some (getCellBounds r (x, y)), s.2)
    else rowScanX r y n (x + 1) (none, mergeBoxesYOpt s.2 s.1)

/-- One row of the row pass, with the end-of-row flush. -/
def rowPass (r : RouteBoxer) (y : ℤ) (acc : List Bound) : List Bound :=
  let s := rowScanX r y r.gridW 0 (none, acc)
  mergeBoxesYOpt s.2 s.1

/-- All rows of the row pass (y ascending from 0). -/
def rowsPass (r : RouteBoxer) : ℕ → ℤ → List Bound → List Bound
  | 0, _, acc => acc
  | n + 1, y, acc => rowsPass r n (y + 1) (rowPass r y acc)

/-- Inner y-loop of the column pass of `mergeIntersectingCells`. -/
def colScanY (r : RouteBoxer) (x : ℤ) : ℕ → ℤ → Option Bound × List Bound →
    Option Bound × List Bound
  | 0, _, s => s
  | n + 1, y, s =>
    if r.grid x y then
      match s.1 with
      | some cb => colScanY r x n (y + 1) (some (extendB cb (getCellBounds r (x, y)).ne), s.2)
      | none => colScanY r x n (y + 1) (some (getCellBounds r (x, y)), s.2)
    else colScanY r x n (y + 1) (none, mergeBoxesXOpt s.2 s.1)

/-- One column of the column pass, with the end-of-column flush. -/
def colPass (r : RouteBoxer) (x : ℤ) (acc : List Bound) : List Bound :=
  let s := colScanY r x r.gridH 0 (none, acc)
  mergeBoxesXOpt s.2 s.1

/-- All columns of the column pass (x ascending from 0). -/
def colsPass (r : RouteBoxer) : ℕ → ℤ → List Bound → List Bound
  | 0, _, acc => acc
  | n + 1, x, acc => colsPass r n (x + 1) (colPass r x acc)

/-- `mergeIntersectingCells`: the row pass feeds `boxesY`, the column pass
feeds `boxesX`; both append to whatever the accumulators already hold. -/
def mergeIntersectingCells (r : RouteBoxer) : RouteBoxer :=
  { r with boxesY := rowsPass r r.gridH 0 r.boxesY,
           boxesX := colsPass r r.gridW 0 r.boxesX }

/-- `Boxes`: the full pipeline, returning the produced rectangle set together
with the post-call receiver state.  `none` models the panic on an empty route. -/
def Boxes (fuel : ℕ) (r : RouteBoxer) : Option (List Bound × RouteBoxer) :=
  let r1 := buildGrid fuel r
  match FindIntersectingCells r1 with
  | none => none
  | some r2 =>
    let r3 := mergeIntersectingCells r2
    some (if r3.boxesX.length ≤ r3.boxesY.length then r3.boxesX else r3.boxesY, r3)

/-! ### Conversion and remainder lemmas -/

lemma rad2deg_deg2rad (x : ℝ) : rad2deg (deg2rad x) = x := by
  unfold rad2deg deg2rad
  field_simp

lemma rad2deg_add (a b : ℝ) : rad2deg (a + b) = rad2deg a + rad2deg b := by
  unfold rad2deg; ring

lemma rad2deg_sub (a b : ℝ) : rad2deg (a - b) = rad2deg a - rad2deg b := by
  unfold rad2deg; ring

lemma rad2deg_pos {x : ℝ} (h : 0 < x) : 0 < rad2deg x := by
  unfold rad2deg
  positivity

lemma rad2deg_zero : rad2deg 0 = 0 := by
  unfold rad2deg; simp

lemma deg2rad_zero : deg2rad 0 = 0 := by unfold deg2rad; ring
lemma deg2rad_90 : deg2rad 90 = π / 2 := by unfold deg2rad; ring
lemma deg2rad_180 : deg2rad 180 = π := by unfold deg2rad; ring
lemma deg2rad_270 : deg2rad 270 = 3 * π / 2 := by unfold deg2rad; ring

lemma cos_3pi2 : Real.cos (3 * π / 2) = 0 := by
  have h : (3 : ℝ) * π / 2 = π + π / 2 := by ring
  rw [h, Real.cos_add, Real.cos_pi, Real.sin_pi, Real.cos_pi_div_two]; ring

lemma sin_3pi2 : Real.sin (3 * π / 2) = -1 := by
  have h : (3 : ℝ) * π / 2 = π + π / 2 := by ring
  rw [h, Real.sin_add, Real.cos_pi, Real.sin_pi, Real.sin_pi_div_two, Real.cos_pi_div_two]
  ring

/-- Reduction of `x + 3π` by the (buggy) modulus `(2π) - π = π` when the
payload is small: the nearest multiple is 3π and the payload survives. -/
lemma remainder_3pi (t : ℝ) (h : |t| < π / 2) :
    remainder (t + 3 * π) ((2 * π) - π) = t := by
  have hπ : (2 * π) - π = π := by ring
  rw [hπ]
  unfold remainder
  have hπ0 : (0 : ℝ) < π := Real.pi_pos
  have h1 : (t + 3 * π) / π = t / π + ((3 : ℤ) : ℝ) := by
    push_cast
    field_simp
  rw [h1, round_add_int]
  have habs := abs_lt.mp h
  have h2 : round (t / π) = 0 := by
    rw [round_eq_zero_iff]
    constructor
    · rw [le_div_iff₀ hπ0]
      nlinarith [habs.1]
    · rw [div_lt_iff₀ hπ0]
      nlinarith [habs.2]
  rw [h2]
  push_cast
  ring

lemma remainder_360_360 : remainder 360 360 = 0 := by
  unfold remainder
  norm_num

lemma remainder_450_360 : remainder 450 360 = 90 := by
  unfold remainder
  have h : round ((450 : ℝ) / 360) = 1 := by
    norm_num [round_eq]
  rw [h]
  norm_num

lemma atan2_zero_pos {x : ℝ} (h : 0 < x) : atan2 0 x = 0 := by
  unfold atan2
  rw [if_pos h]
  simp

lemma atan2_pos_zero {y : ℝ} (h : 0 < y) : atan2 y 0 = π / 2 := by
  unfold atan2
  rw [if_neg (lt_irrefl 0), if_neg (lt_irrefl 0), if_pos h]

/-! ### Evaluation of `RhumbDestinationPoint` at the four cardinal bearings -/

/-- Bearing 0 (due north): latitude advances by the angular distance, the
longitude is unchanged (provided it is small enough that the broken modulus
does not bite). -/
lemma rhumbDest_north (p : Point) (dist : ℝ)
    (h1 : (1e-10 : ℝ) ≤ dist / earthRadius)
    (h2 : |deg2rad p.lat + dist / earthRadius| ≤ π / 2)
    (h3 : |deg2rad p.lng| < π / 2) :
    RhumbDestinationPoint p 0 dist = ⟨p.lng, p.lat + rad2deg (dist / earthRadius)⟩ := by
  unfold RhumbDestinationPoint
  simp only [deg2rad_zero, Real.cos_zero, Real.sin_zero, mul_one, mul_zero, zero_div]
  have hsnap : ¬ (|dist / earthRadius| < 1e-10) :=
    not_lt.mpr (le_trans h1 (le_abs_self _))
  rw [if_neg hsnap]
  have hrefl : ¬ (|deg2rad p.lat + dist / earthRadius| > π / 2) := not_lt.mpr h2
  rw [if_neg hrefl]
  rw [add_zero, remainder_3pi _ h3, rad2deg_deg2rad, rad2deg_add, rad2deg_deg2rad]

/-- Bearing 0 at distance 0: the snap-to-zero branch fires and the point's
latitude is returned unchanged. -/
lemma rhumbDest_north_zero_lat (p : Point) (h2 : |deg2rad p.lat| ≤ π / 2) :
    (RhumbDestinationPoint p 0 0).lat = p.lat := by
  unfold RhumbDestinationPoint
  simp only [deg2rad_zero, Real.cos_zero, Real.sin_zero, mul_one, mul_zero, zero_div,
    ite_self, add_zero]
  rw [if_neg (not_lt.mpr h2), rad2deg_deg2rad]

/-- Bearing 180 (due south): latitude decreases by the angular distance. -/
lemma rhumbDest_south (p : Point) (dist : ℝ)
    (h1 : (1e-10 : ℝ) ≤ dist / earthRadius)
    (h2 : |deg2rad p.lat - dist / earthRadius| ≤ π / 2)
    (h3 : |deg2rad p.lng| < π / 2) :
    RhumbDestinationPoint p 180 dist = ⟨p.lng, p.lat - rad2deg (dist / earthRadius)⟩ := by
  unfold RhumbDestinationPoint
  simp only [deg2rad_180, Real.cos_pi, Real.sin_pi, mul_neg_one, mul_zero, zero_div]
  have hsnap : ¬ (|-(dist / earthRadius)| < 1e-10) := by
    rw [abs_neg]
    exact not_lt.mpr (le_trans h1 (le_abs_self _))
  rw [if_neg hsnap]
  have h2' : ¬ (|deg2rad p.lat + -(dist / earthRadius)| > π / 2) := by
    rw [← sub_eq_add_neg]
    exact not_lt.mpr h2
  rw [if_neg h2']
  rw [add_zero, remainder_3pi _ h3, rad2deg_deg2rad, ← sub_eq_add_neg, rad2deg_sub,
    rad2deg_deg2rad]

/-- Bearing 90 (due east): the latitude delta snaps to zero, `dPhi` collapses
to `log 1 = 0`, `q` falls back to `cos lat`, and the longitude becomes the
(broken) modulus reduction of `lng + d / cos lat + 3π`. -/
lemma rhumbDest_east_general (p : Point) (dist : ℝ)
    (htan : Real.tan (deg2rad p.lat / 2 + π / 4) ≠ 0)
    (hlat : |deg2rad p.lat| ≤ π / 2) :
    RhumbDestinationPoint p 90 dist =
      ⟨rad2deg (remainder (deg2rad p.lng + dist / earthRadius / Real.cos (deg2rad p.lat)
        + 3 * π) ((2 * π) - π)), p.lat⟩ := by
  unfold RhumbDestinationPoint
  simp only [deg2rad_90, Real.cos_pi_div_two, Real.sin_pi_div_two, mul_zero, mul_one]
  rw [if_pos (by norm_num : |(0 : ℝ)| < 1e-10), add_zero]
  rw [div_self htan, Real.log_one]
  rw [if_neg (by simp : ¬ ((0 : ℝ) ≠ 0))]
  rw [if_neg (not_lt.mpr hlat)]
  rw [rad2deg_deg2rad]

/-- Bearing 90 with a small resulting longitude: the longitude advances by
`d / cos lat`. -/
lemma rhumbDest_east (p : Point) (dist : ℝ)
    (htan : Real.tan (deg2rad p.lat / 2 + π / 4) ≠ 0)
    (hlat : |deg2rad p.lat| ≤ π / 2)
    (hrem : |deg2rad p.lng + dist / earthRadius / Real.cos (deg2rad p.lat)| < π / 2) :
    RhumbDestinationPoint p 90 dist =
      ⟨p.lng + rad2deg (dist / earthRadius / Real.cos (deg2rad p.lat)), p.lat⟩ := by
  rw [rhumbDest_east_general p dist htan hlat, remainder_3pi _ hrem, rad2deg_add,
    rad2deg_deg2rad]

/-- Bearing 270 (due west): as bearing 90 but the longitude retreats. -/
lemma rhumbDest_west (p : Point) (dist : ℝ)
    (htan : Real.tan (deg2rad p.lat / 2 + π / 4) ≠ 0)
    (hlat : |deg2rad p.lat| ≤ π / 2)
    (hrem : |deg2rad p.lng - dist / earthRadius / Real.cos (deg2rad p.lat)| < π / 2) :
    RhumbDestinationPoint p 270 dist =
      ⟨p.lng - rad2deg (dist / earthRadius / Real.cos (deg2rad p.lat)), p.lat⟩ := by
  unfold RhumbDestinationPoint
  simp only [deg2rad_270, cos_3pi2, sin_3pi2, mul_zero, mul_neg_one]
  rw [if_pos (by norm_num : |(0 : ℝ)| < 1e-10), add_zero]
  rw [div_self htan, Real.log_one]
  rw [if_neg (by simp : ¬ ((0 : ℝ) ≠ 0))]
  rw [if_neg (not_lt.mpr hlat)]
  have hneg : -(dist / earthRadius) / Real.cos (deg2rad p.lat) =
      -(dist / earthRadius / Real.cos (deg2rad p.lat)) := by ring
  rw [hneg, ← sub_eq_add_neg, remainder_3pi _ hrem, rad2deg_sub, rad2deg_deg2rad,
    rad2deg_deg2rad]

/-- Due-north bearing: for a segment with equal longitudes and strictly
increasing latitude (both within the poles) `RhumBearingTo` returns 0. -/
lemma bearing_due_north (a b : Point) (hlng : b.lng = a.lng)
    (ha : -(π / 2) < deg2rad a.lat) (hab : deg2rad a.lat < deg2rad b.lat)
    (hb : deg2rad b.lat < π / 2) :
    RhumBearingTo a b = 0 := by
  unfold RhumBearingTo
  rw [hlng]
  dsimp only
  rw [sub_self, deg2rad_zero]
  have hpi : ¬ (|(0 : ℝ)| > π) := by
    rw [abs_zero]; exact not_lt.mpr (le_of_lt Real.pi_pos)
  rw [if_neg hpi]
  have hu0 : (0 : ℝ) < deg2rad a.lat / 2 + π / 4 := by nlinarith
  have huv : deg2rad a.lat / 2 + π / 4 < deg2rad b.lat / 2 + π / 4 := by nlinarith
  have hv2 : deg2rad b.lat / 2 + π / 4 < π / 2 := by nlinarith
  have htu : 0 < Real.tan (deg2rad a.lat / 2 + π / 4) :=
    Real.tan_pos_of_pos_of_lt_pi_div_two hu0 (lt_trans huv hv2)
  have htuv : Real.tan (deg2rad a.lat / 2 + π / 4) < Real.tan (deg2rad b.lat / 2 + π / 4) :=
    Real.tan_lt_tan_of_nonneg_of_lt_pi_div_two (le_of_lt hu0) hv2 huv
  have hdPhi : 0 < Real.log (Real.tan (deg2rad b.lat / 2 + π / 4) /
      Real.tan (deg2rad a.lat / 2 + π / 4)) :=
    Real.log_pos ((one_lt_div htu).mpr htuv)
  rw [atan2_zero_pos hdPhi, rad2deg_zero, zero_add, remainder_360_360]

/-! ### Claim C9: empty route -/

/-- Claim C9.  For the empty route (zero points), the computation explicitly
rejects the input with an invalid-input error instead of panicking — REFUTED:
the API has no error channel at all (`NewRouteBoxer` and `Boxes` return no
error value), and `FindIntersectingCells` indexes `vertices[0]` on the empty
slice, a runtime panic, modelled here by the whole pipeline returning `none`. -/
theorem C9_empty_route_panics :
    Boxes 10 (NewRouteBoxer 1 []) = none ∧
    NewRouteBoxer 1 [] =
      ⟨1, [], [], [], fun _ _ => false, 0, 0, [], []⟩ := by
  constructor
  · rfl
  · rfl

/-! ### Claim C3: non-positive distance range -/

/-- The spec's failing route for scenario 3. -/
def routeC3 : List Point := [⟨0, 0⟩, ⟨0, 1⟩]

/-- Claim C3.  `distanceRange <= 0` is explicitly rejected before the grid
growth loop — REFUTED: `NewRouteBoxer` performs no validation (it has no error
result at all), and with `distanceRange = 0` every latitude line generated by
the northward growth loop equals the centre latitude `0.5 < 1`, so the Go
loop's guard `latGrid[i-2] < routeBounds.NorthEast().Lat()` holds forever:
every unit of fuel appends one more line and the loop never terminates. -/
theorem C3_no_rejection_growth_loop_diverges :
    (NewRouteBoxer 0 routeC3).distanceRange = 0 ∧
    boundCenter (pointSetBound routeC3) = ⟨0, 1 / 2⟩ ∧
    (pointSetBound routeC3).ne.lat = 1 ∧
    (RhumbDestinationPoint ⟨0, 1 / 2⟩ 0 (0 * (2 : ℝ))).lat = 1 / 2 ∧
    (∀ n : ℕ, ∀ i : ℕ, ∀ acc : List ℝ, (∀ x ∈ acc, x = (1 / 2 : ℝ)) →
      (growNorth ⟨0, 1 / 2⟩ 0 1 n i acc).length = acc.length + n) := by
  refine ⟨rfl, ?_, ?_, ?_, ?_⟩
  · unfold routeC3 pointSetBound boundCenter extendB
    simp
  · unfold routeC3 pointSetBound extendB
    simp
  · rw [zero_mul]
    apply rhumbDest_north_zero_lat
    unfold deg2rad
    rw [abs_of_nonneg (by positivity)]
    nlinarith [Real.pi_pos]
  · intro n
    induction n with
    | zero => intro i acc _; simp [growNorth]
    | succ n ih =>
      intro i acc hacc
      rw [growNorth]
      have hval : (RhumbDestinationPoint ⟨0, 1 / 2⟩ 0 ((0 : ℝ) * (i : ℝ))).lat = 1 / 2 := by
        rw [zero_mul]
        apply rhumbDest_north_zero_lat
        unfold deg2rad
        rw [abs_of_nonneg (by positivity)]
        nlinarith [Real.pi_pos]
      have hguard : acc.getD (i - 2) 0 < 1 := by
        by_cases hidx : i - 2 < acc.length
        · have hmem : acc.getD (i - 2) 0 ∈ acc := by
            rw [List.getD_eq_getElem acc 0 hidx]
            exact List.getElem_mem hidx
          rw [hacc _ hmem]; norm_num
        · rw [List.getD_eq_default acc 0 (le_of_not_lt hidx)]; norm_num
      rw [if_pos hguard]
      rw [ih (i + 1) (acc ++ [(RhumbDestinationPoint ⟨0, 1 / 2⟩ 0 ((0 : ℝ) * (i : ℝ))).lat])]
      · simp
        omega
      · intro x hx
        rcases List.mem_append.mp hx with hx | hx
        · exact hacc x hx
        · rw [List.mem_singleton.mp hx, hval]

/-! ### Claim C5: longitude normalisation of `RhumbDestinationPoint` -/

/-- Claim C5.  The returned longitude is the canonical normalisation of the
travelled longitude into (−180°, 180°] — REFUTED: the transliterated modulus
`(2*π) - π` equals `π`, so longitudes are reduced modulo 180° instead of 360°.
From origin longitude 170° (zero distance, bearing 90°) the function returns
longitude −10°, which is not congruent to 170° modulo 360°. -/
theorem C5_longitude_not_normalized :
    RhumbDestinationPoint ⟨170, 0⟩ 90 0 = ⟨-10, 0⟩ ∧
    (∀ k : ℤ, (-10 : ℝ) ≠ 170 + 360 * k) := by
  constructor
  · have hπ0 : (0 : ℝ) < π := Real.pi_pos
    have h := rhumbDest_east_general ⟨170, 0⟩ 0
      (by
        show Real.tan (deg2rad 0 / 2 + π / 4) ≠ 0
        rw [deg2rad_zero, zero_div, zero_add, Real.tan_pi_div_four]
        norm_num)
      (by
        show |deg2rad 0| ≤ π / 2
        rw [deg2rad_zero, abs_zero]
        positivity)
    rw [h]
    have hlng : deg2rad (Point.lng ⟨(170 : ℝ), (0 : ℝ)⟩) = 17 * π / 18 := by
      show deg2rad 170 = 17 * π / 18
      unfold deg2rad; ring
    have hlat0 : deg2rad (Point.lat ⟨(170 : ℝ), (0 : ℝ)⟩) = 0 := by
      show deg2rad 0 = 0; exact deg2rad_zero
    rw [hlng, hlat0]
    rw [show (0 : ℝ) / earthRadius / Real.cos 0 = 0 by rw [zero_div, zero_div], add_zero]
    have hrem : remainder (17 * π / 18 + 3 * π) ((2 * π) - π) = -(π / 18) := by
      rw [show (2 * π) - π = π by ring]
      unfold remainder
      have h1 : (17 * π / 18 + 3 * π) / π = ((71 : ℝ) / 18) := by
        field_simp
        ring
      rw [h1]
      rw [show round ((71 : ℝ) / 18) = 4 by norm_num [round_eq]]
      push_cast
      ring
    rw [hrem]
    have h10 : rad2deg (-(π / 18)) = -10 := by
      unfold rad2deg
      field_simp
      ring
    rw [h10]
  · intro k h
    have h2 : (2 * k : ℤ) = -1 := by
      have : (2 : ℝ) * (k : ℤ) = -1 := by linarith
      exact_mod_cast this
    omega

/-! ### Claim C6: the distance passed by `getGridIntersect` -/

/-- Claim C6.  The rhumb distance passed to `RhumbDestinationPoint` equals
`earthRadius * (targetLatRad - startLatRad) / cos(bearingRad)` in the unit in
which `RhumbDestinationPoint` divides by `earthRadius`, so the crossing point
lies on the target latitude line — REFUTED: the code scales by
`earthRadius / 1000`, one thousandth of what the destination function expects;
from (0°, 0°) with bearing 0° towards the 18° latitude line the computed
"crossing" lies at latitude 0.018°, not 18°. -/
theorem C6_grid_intersect_wrong_unit :
    getGridIntersectDist ⟨0, 0⟩ 0 18 ≠
      earthRadius * ((deg2rad 18 - deg2rad 0) / Real.cos (deg2rad 0)) ∧
    (getGridIntersect ⟨0, 0⟩ 0 18).lat = 18 / 1000 ∧
    ((18 : ℝ) / 1000) ≠ 18 := by
  have hπ0 : (0 : ℝ) < π := Real.pi_pos
  have hd : getGridIntersectDist ⟨0, 0⟩ 0 18 = (earthRadius / 1000) * (π / 10) := by
    unfold getGridIntersectDist
    have h18 : deg2rad 18 = π / 10 := by unfold deg2rad; ring
    have h0 : deg2rad (Point.lat ⟨(0 : ℝ), (0 : ℝ)⟩) = 0 := by
      show deg2rad 0 = 0; exact deg2rad_zero
    rw [h18, h0, Real.cos_zero]
    ring
  refine ⟨?_, ?_, by norm_num⟩
  · rw [hd]
    have h18 : deg2rad 18 = π / 10 := by unfold deg2rad; ring
    rw [h18, deg2rad_zero, Real.cos_zero]
    unfold earthRadius
    intro h
    nlinarith
  · unfold getGridIntersect
    rw [hd]
    have hdr : (earthRadius / 1000) * (π / 10) / earthRadius = π / 10000 := by
      unfold earthRadius
      field_simp
      ring
    have := rhumbDest_north ⟨0, 0⟩ ((earthRadius / 1000) * (π / 10))
      (by rw [hdr]; nlinarith [Real.pi_gt_three])
      (by
        rw [hdr]
        have : deg2rad (Point.lat ⟨(0 : ℝ), (0 : ℝ)⟩) = 0 := by
          show deg2rad 0 = 0; exact deg2rad_zero
        rw [this, zero_add, abs_of_nonneg (by positivity)]
        nlinarith)
      (by
        have : deg2rad (Point.lng ⟨(0 : ℝ), (0 : ℝ)⟩) = 0 := by
          show deg2rad 0 = 0; exact deg2rad_zero
        rw [this, abs_zero]
        positivity)
    rw [this]
    show (0 : ℝ) + rad2deg ((earthRadius / 1000) * (π / 10) / earthRadius) = 18 / 1000
    rw [hdr, zero_add]
    unfold rad2deg
    field_simp
    ring

/-! ### Scan lemmas (cell location) -/

lemma scanGE_cons_lt {a v : ℝ} {l : List ℝ} (h : a < v) :
    scanGE (a :: l) v = scanGE l v + 1 := by
  show (if a < v then scanGE l v + 1 else 0) = scanGE l v + 1
  rw [if_pos h]

lemma scanGE_cons_ge {a v : ℝ} {l : List ℝ} (h : ¬ a < v) :
    scanGE (a :: l) v = 0 := by
  show (if a < v then scanGE l v + 1 else 0) = 0
  rw [if_neg h]

lemma scanFwd_step {lines : List ℝ} {v : ℝ} {fuel : ℕ} {x : ℤ}
    (h : lineAt lines (x + 1) < v) :
    scanFwd lines v (fuel + 1) x = scanFwd lines v fuel (x + 1) := by
  show (if lineAt lines (x + 1) < v then scanFwd lines v fuel (x + 1) else x) =
    scanFwd lines v fuel (x + 1)
  rw [if_pos h]

lemma scanFwd_stop {lines : List ℝ} {v : ℝ} {fuel : ℕ} {x : ℤ}
    (h : ¬ lineAt lines (x + 1) < v) :
    scanFwd lines v (fuel + 1) x = x := by
  show (if lineAt lines (x + 1) < v then scanFwd lines v fuel (x + 1) else x) = x
  rw [if_neg h]

lemma scanBwd_step {lines : List ℝ} {v : ℝ} {fuel : ℕ} {x : ℤ}
    (h : v < lineAt lines x) :
    scanBwd lines v (fuel + 1) x = scanBwd lines v fuel (x - 1) := by
  show (if v < lineAt lines x then scanBwd lines v fuel (x - 1) else x) =
    scanBwd lines v fuel (x - 1)
  rw [if_pos h]

lemma scanBwd_stop {lines : List ℝ} {v : ℝ} {fuel : ℕ} {x : ℤ}
    (h : ¬ v < lineAt lines x) :
    scanBwd lines v (fuel + 1) x = x := by
  show (if v < lineAt lines x then scanBwd lines v fuel (x - 1) else x) = x
  rw [if_neg h]

lemma lineAt_eq_get (l : List ℝ) (i : ℤ) (h0 : 0 ≤ i) (hn : i.toNat < l.length) :
    lineAt l i = l.get ⟨i.toNat, hn⟩ := by
  unfold lineAt
  rw [if_pos ⟨h0, by omega⟩, List.getD_eq_getElem l 0 hn]
  simp

lemma lineAt_natCast (l : List ℝ) (n : ℕ) (hn : n < l.length) :
    lineAt l (n : ℤ) = l.get ⟨n, hn⟩ := by
  rw [lineAt_eq_get l (n : ℤ) (by omega) (by simpa using hn)]
  simp

/-- Boundary convention of the brute-force scan: a value sitting exactly on
sorted line `k` makes the scan stop at `k` (so `getCellCoords` yields cell
`k - 1`, the cell whose upper/right edge is the boundary). -/
lemma scanGE_on_line {v : ℝ} :
    ∀ (lines : List ℝ) (k : ℕ) (_hsort : lines.Sorted (· < ·)) (hk : k < lines.length),
      lines.get ⟨k, hk⟩ = v → scanGE lines v = k := by
  intro lines
  induction lines with
  | nil => intro k _ hk; simp at hk
  | cons a l ih =>
    intro k hs hk hv
    rcases List.sorted_cons.mp hs with ⟨ha, hl⟩
    match k with
    | 0 =>
      have : a = v := hv
      rw [scanGE_cons_ge (by rw [this]; exact lt_irrefl v)]
    | k + 1 =>
      have hkl : k < l.length := by simpa using hk
      have hgv : l.get ⟨k, hkl⟩ = v := hv
      have hav : a < v := by
        rw [← hgv]
        exact ha _ (List.get_mem l k hkl)
      rw [scanGE_cons_lt hav, ih k hl hkl hgv]

/-- Boundary convention of the forward hint scan: value exactly on line `k`,
hint at or left of `k - 1`, enough fuel — the scan stops at `k - 1`, the same
upper-edge convention as the brute-force scan. -/
lemma scanFwd_on_line {lines : List ℝ} {v : ℝ} {k : ℕ}
    (hs : lines.Sorted (· < ·)) (hk : k < lines.length) (hv : lines.get ⟨k, hk⟩ = v) :
    ∀ (fuel : ℕ) (x₀ : ℤ), 0 ≤ x₀ → x₀ ≤ (k : ℤ) - 1 → (k : ℤ) - 1 - x₀ < fuel →
      scanFwd lines v fuel x₀ = (k : ℤ) - 1 := by
  intro fuel
  induction fuel with
  | zero => intro x₀ _ h1 h2; omega
  | succ fuel ih =>
    intro x₀ h0 h1 h2
    by_cases hstop : x₀ = (k : ℤ) - 1
    · subst hstop
      rw [scanFwd_stop]
      rw [show (k : ℤ) - 1 + 1 = (k : ℤ) by ring, lineAt_natCast lines k hk, hv]
      exact lt_irrefl v
    · have hx1 : x₀ + 1 ≤ (k : ℤ) - 1 := by omega
      have hx1n : (x₀ + 1).toNat < lines.length := by omega
      rw [scanFwd_step, ih (x₀ + 1) (by omega) hx1 (by omega)]
      rw [lineAt_eq_get lines _ (by omega) hx1n, ← hv]
      exact List.Sorted.rel_get_of_lt hs (by simp only [Fin.mk_lt_mk]; omega)

/-- Boundary convention of the backward hint scan: value exactly on line `k`,
hint at or right of `k`, enough fuel — the scan stops at `k` itself, i.e. the
cell whose lower/left edge is the boundary, unlike the other two locators. -/
lemma scanBwd_on_line {lines : List ℝ} {v : ℝ} {k : ℕ}
    (hs : lines.Sorted (· < ·)) (hk : k < lines.length) (hv : lines.get ⟨k, hk⟩ = v) :
    ∀ (fuel : ℕ) (x₀ : ℤ), (k : ℤ) ≤ x₀ → x₀ < lines.length → x₀ - (k : ℤ) < fuel →
      scanBwd lines v fuel x₀ = (k : ℤ) := by
  intro fuel
  induction fuel with
  | zero => intro x₀ h0 h1 h2; omega
  | succ fuel ih =>
    intro x₀ h0 h1 h2
    by_cases hstop : x₀ = (k : ℤ)
    · subst hstop
      rw [scanBwd_stop]
      rw [lineAt_natCast lines k hk, hv]
      exact lt_irrefl v
    · have hx1n : x₀.toNat < lines.length := by omega
      rw [scanBwd_step, ih (x₀ - 1) (by omega) (by omega) (by omega)]
      rw [lineAt_eq_get lines _ (by omega) hx1n, ← hv]
      exact List.Sorted.rel_get_of_lt hs (by simp only [Fin.mk_lt_mk]; omega)

/-! ### Step lemmas for the grid growth loops -/

lemma growNorth_of_not {c : Point} {range ne : ℝ} {i : ℕ} {acc : List ℝ}
    (fuel : ℕ) (h : ¬ acc.getD (i - 2) 0 < ne) : growNorth c range ne fuel i acc = acc := by
  cases fuel with
  | zero => rfl
  | succ n =>
    show (if acc.getD (i - 2) 0 < ne then growNorth c range ne n (i + 1)
      (acc ++ [(RhumbDestinationPoint c 0 (range * (i : ℝ))).lat]) else acc) = acc
    rw [if_neg h]

lemma growNorth_of_lt {c : Point} {range ne : ℝ} {fuel i : ℕ} {acc : List ℝ}
    (h : acc.getD (i - 2) 0 < ne) :
    growNorth c range ne (fuel + 1) i acc =
      growNorth c range ne fuel (i + 1)
        (acc ++ [(RhumbDestinationPoint c 0 (range * (i : ℝ))).lat]) := by
  show (if acc.getD (i - 2) 0 < ne then growNorth c range ne fuel (i + 1)
    (acc ++ [(RhumbDestinationPoint c 0 (range * (i : ℝ))).lat]) else acc) = _
  rw [if_pos h]

lemma growSouth_of_not {c : Point} {range sw : ℝ} {i1 : ℕ} {acc : List ℝ}
    (fuel : ℕ) (h : ¬ sw < acc.getD 1 0) : growSouth c range sw fuel i1 acc = acc := by
  cases fuel with
  | zero => rfl
  | succ n =>
    show (if sw < acc.getD 1 0 then growSouth c range sw n (i1 + 1)
      ((RhumbDestinationPoint c 180 (range * (i1 : ℝ))).lat :: acc) else acc) = acc
    rw [if_neg h]

lemma growSouth_of_lt {c : Point} {range sw : ℝ} {fuel i1 : ℕ} {acc : List ℝ}
    (h : sw < acc.getD 1 0) :
    growSouth c range sw (fuel + 1) i1 acc =
      growSouth c range sw fuel (i1 + 1)
        ((RhumbDestinationPoint c 180 (range * (i1 : ℝ))).lat :: acc) := by
  show (if sw < acc.getD 1 0 then growSouth c range sw fuel (i1 + 1)
    ((RhumbDestinationPoint c 180 (range * (i1 : ℝ))).lat :: acc) else acc) = _
  rw [if_pos h]

lemma growEast_of_not {c : Point} {range ne : ℝ} {i2 : ℕ} {acc : List ℝ}
    (fuel : ℕ) (h : ¬ acc.getD (i2 - 2) 0 < ne) : growEast c range ne fuel i2 acc = acc := by
  cases fuel with
  | zero => rfl
  | succ n =>
    show (if acc.getD (i2 - 2) 0 < ne then growEast c range ne n (i2 + 1)
      (acc ++ [(RhumbDestinationPoint c 90 (range * (i2 : ℝ))).lng]) else acc) = acc
    rw [if_neg h]

lemma growEast_of_lt {c : Point} {range ne : ℝ} {fuel i2 : ℕ} {acc : List ℝ}
    (h : acc.getD (i2 - 2) 0 < ne) :
    growEast c range ne (fuel + 1) i2 acc =
      growEast c range ne fuel (i2 + 1)
        (acc ++ [(RhumbDestinationPoint c 90 (range * (i2 : ℝ))).lng]) := by
  show (if acc.getD (i2 - 2) 0 < ne then growEast c range ne fuel (i2 + 1)
    (acc ++ [(RhumbDestinationPoint c 90 (range * (i2 : ℝ))).lng]) else acc) = _
  rw [if_pos h]

lemma growWest_of_not {c : Point} {range sw : ℝ} {i3 : ℕ} {acc : List ℝ}
    (fuel : ℕ) (h : ¬ sw < acc.getD 1 0) : growWest c range sw fuel i3 acc = acc := by
  cases fuel with
  | zero => rfl
  | succ n =>
    show (if sw < acc.getD 1 0 then growWest c range sw n (i3 + 1)
      ((RhumbDestinationPoint c 270 (range * (i3 : ℝ))).lng :: acc) else acc) = acc
    rw [if_neg h]

lemma growWest_of_lt {c : Point} {range sw : ℝ} {fuel i3 : ℕ} {acc : List ℝ}
    (h : sw < acc.getD 1 0) :
    growWest c range sw (fuel + 1) i3 acc =
      growWest c range sw fuel (i3 + 1)
        ((RhumbDestinationPoint c 270 (range * (i3 : ℝ))).lng :: acc) := by
  show (if sw < acc.getD 1 0 then growWest c range sw fuel (i3 + 1)
    ((RhumbDestinationPoint c 270 (range * (i3 : ℝ))).lng :: acc) else acc) = _
  rw [if_pos h]

/-! ### Claim C8: boundary vertex convention -/

/-- A bare state carrying a concrete 4-line grid on each axis, used to exhibit
the boundary-vertex behaviour of the three locators. -/
def rC8 : RouteBoxer :=
  { distanceRange := 1, vertices := [], latGrid := [0, 1, 2, 3], lngGrid := [0, 1, 2, 3],
    grid := fun _ _ => false, gridW := 4, gridH := 4, boxesX := [], boxesY := [] }

/-- Claim C8.  Vertices exactly on a grid line are assigned to the cell whose
lower/left edge is that boundary, uniformly across the locators — REFUTED: on
the grid with lines 0,1,2,3, the vertex (2,2) (exactly on line index 2) is
assigned cell (1,1) by the brute-force locator `getCellCoords` (the cell whose
UPPER/right edge is the boundary), but cell (2,2) by the hint-based locator
scanning backward from hint cell (2,2) of the nearby vertex (2.5, 2.5). -/
theorem C8_boundary_convention_cex :
    getCellCoords rC8 ⟨2, 2⟩ = (1, 1) ∧
    getGridCoordsFromHint rC8 ⟨2, 2⟩ ⟨5 / 2, 5 / 2⟩ (2, 2) = (2, 2) ∧
    ((1, 1) : ℤ × ℤ) ≠ (2, 2) := by
  refine ⟨?_, ?_, by decide⟩
  · unfold getCellCoords rC8
    have h : scanGE [0, 1, 2, 3] (2 : ℝ) = 2 := by
      rw [scanGE_cons_lt (by norm_num), scanGE_cons_lt (by norm_num),
        scanGE_cons_ge (by norm_num)]
    simp only [h]
    rfl
  · unfold getGridCoordsFromHint rC8
    have hlineAt : lineAt [0, 1, 2, 3] (2 : ℤ) = 2 := by
      unfold lineAt
      norm_num
      rfl
    have h : scanBwd [0, 1, 2, 3] (2 : ℝ) (([(0 : ℝ), 1, 2, 3]).length + 2) 2 = 2 := by
      have hlen : ([(0 : ℝ), 1, 2, 3]).length + 2 = 6 := by simp
      rw [hlen]
      rw [scanBwd_stop (by rw [hlineAt]; norm_num)]
    simp only []
    rw [h]
    rw [if_neg (by norm_num : ¬ ((5 : ℝ) / 2 < 2))]

/-- Claim C8, amended.  On strictly increasing grid lines, a coordinate lying
exactly on line `k` is located one-sidedly but NOT uniformly: the brute-force
scan of `getCellCoords` stops at `k` (cell `k-1`, upper/right edge at the
boundary) and the forward hint scan agrees (`k-1`), while the backward hint
scan returns `k` (lower/left edge at the boundary) — the two conventions
differ by one cell. -/
theorem C8_boundary_convention_amended (lines : List ℝ) (v : ℝ) (k : ℕ)
    (hs : lines.Sorted (· < ·)) (hk : k < lines.length) (hv : lines.get ⟨k, hk⟩ = v) :
    scanGE lines v = k ∧
    (∀ (fuel : ℕ) (x₀ : ℤ), 0 ≤ x₀ → x₀ ≤ (k : ℤ) - 1 → (k : ℤ) - 1 - x₀ < fuel →
      scanFwd lines v fuel x₀ = (k : ℤ) - 1) ∧
    (∀ (fuel : ℕ) (x₀ : ℤ), (k : ℤ) ≤ x₀ → x₀ < lines.length → x₀ - (k : ℤ) < fuel →
      scanBwd lines v fuel x₀ = (k : ℤ)) ∧
    (k : ℤ) - 1 ≠ (k : ℤ) := by
  exact ⟨scanGE_on_line lines k hs hk hv, scanFwd_on_line hs hk hv,
    scanBwd_on_line hs hk hv, by omega⟩

/-- Witness for the amended C8 theorem at the concrete grid 0,1,2,3 with the
boundary value 2 on line index 2. -/
theorem C8_boundary_convention_witness :
    scanGE [0, 1, 2, 3] (2 : ℝ) = 2 ∧
    scanFwd [0, 1, 2, 3] (2 : ℝ) 6 0 = 1 ∧
    scanBwd [0, 1, 2, 3] (2 : ℝ) 6 3 = 2 := by
  have hs : ([(0 : ℝ), 1, 2, 3]).Sorted (· < ·) := by
    simp [List.sorted_cons]
    norm_num
  have hk : 2 < ([(0 : ℝ), 1, 2, 3]).length := by simp
  have hv : ([(0 : ℝ), 1, 2, 3]).get ⟨2, hk⟩ = 2 := rfl
  have h := C8_boundary_convention_amended [0, 1, 2, 3] 2 2 hs hk hv
  refine ⟨h.1, ?_, ?_⟩
  · have := h.2.1 6 0 (by norm_num) (by norm_num) (by norm_num)
    simpa using this
  · have := h.2.2.1 6 3 (by norm_num) (by simp) (by norm_num)
    simpa using this

/-! ### Claims C2 and C4: the single-point route [(10,45)], distanceRange 50 -/

/-- The spec's single-point route (longitude 10, latitude 45). -/
def routeC4 : List Point := [⟨10, 45⟩]

/-- Cell height (in degrees) of the distance-50 grid. -/
def dC4 : ℝ := rad2deg (50 / earthRadius)

/-- Cell width (in degrees) of the distance-50 grid at latitude 45. -/
def eC4 : ℝ := rad2deg (50 / earthRadius / Real.cos (deg2rad 45))

/-- The receiver state after `buildGrid` on the single-point route. -/
def rC4grid : RouteBoxer := buildGrid 3 (NewRouteBoxer 50 routeC4)

lemma deg2rad_45 : deg2rad 45 = π / 4 := by unfold deg2rad; ring
lemma deg2rad_10 : deg2rad 10 = π / 18 := by unfold deg2rad; ring

lemma sqrt_two_gt_one : (1 : ℝ) < Real.sqrt 2 := by
  nlinarith [Real.sq_sqrt (show (0 : ℝ) ≤ 2 by norm_num), Real.sqrt_nonneg 2]

lemma cos45_gt_half : (1 / 2 : ℝ) < Real.cos (deg2rad 45) := by
  rw [deg2rad_45, Real.cos_pi_div_four]
  nlinarith [sqrt_two_gt_one]

lemma dC4_pos : 0 < dC4 := by
  apply rad2deg_pos
  unfold earthRadius
  norm_num

lemma eC4_pos : 0 < eC4 := by
  apply rad2deg_pos
  apply div_pos
  · unfold earthRadius; norm_num
  · linarith [cos45_gt_half]

lemma tan45_ne : Real.tan (deg2rad 45 / 2 + π / 4) ≠ 0 := by
  rw [deg2rad_45]
  have h1 : (0 : ℝ) < π / 4 / 2 + π / 4 := by positivity
  have h2 : π / 4 / 2 + π / 4 < π / 2 := by nlinarith [Real.pi_pos]
  exact ne_of_gt (Real.tan_pos_of_pos_of_lt_pi_div_two h1 h2)

lemma abs_pi4_le : |deg2rad 45| ≤ π / 2 := by
  rw [deg2rad_45, abs_of_nonneg (by positivity)]
  nlinarith [Real.pi_pos]

lemma hn1C4 : (RhumbDestinationPoint ⟨10, 45⟩ 0 50).lat = 45 + dC4 := by
  rw [rhumbDest_north ⟨10, 45⟩ 50
    (by unfold earthRadius; norm_num)
    (by
      show |deg2rad 45 + 50 / earthRadius| ≤ π / 2
      rw [deg2rad_45]
      unfold earthRadius
      rw [abs_of_nonneg (by positivity)]
      nlinarith [Real.pi_gt_three])
    (by
      show |deg2rad 10| < π / 2
      rw [deg2rad_10, abs_of_nonneg (by positivity)]
      nlinarith [Real.pi_pos])]
  dsimp only
  rfl

lemma hs1C4 : (RhumbDestinationPoint ⟨10, 45⟩ 180 (50 * ((1 : ℕ) : ℝ))).lat = 45 - dC4 := by
  rw [show (50 : ℝ) * ((1 : ℕ) : ℝ) = 50 by norm_num]
  rw [rhumbDest_south ⟨10, 45⟩ 50
    (by unfold earthRadius; norm_num)
    (by
      show |deg2rad 45 - 50 / earthRadius| ≤ π / 2
      rw [deg2rad_45]
      unfold earthRadius
      rw [abs_of_nonneg (by nlinarith [Real.pi_gt_three])]
      nlinarith [Real.pi_gt_three])
    (by
      show |deg2rad 10| < π / 2
      rw [deg2rad_10, abs_of_nonneg (by positivity)]
      nlinarith [Real.pi_pos])]
  dsimp only
  rfl

lemma cos45_bounds :
    (0 : ℝ) < 50 / earthRadius / Real.cos (deg2rad 45) ∧
    50 / earthRadius / Real.cos (deg2rad 45) < 2 * (50 / earthRadius) := by
  have hc := cos45_gt_half
  have hc0 : (0 : ℝ) < Real.cos (deg2rad 45) := by linarith
  have hu1 : (0 : ℝ) < 50 / earthRadius := by unfold earthRadius; norm_num
  constructor
  · exact div_pos hu1 hc0
  · rw [div_lt_iff₀ hc0]
    nlinarith

lemma he1C4 : (RhumbDestinationPoint ⟨10, 45⟩ 90 50).lng = 10 + eC4 := by
  rw [rhumbDest_east ⟨10, 45⟩ 50 tan45_ne abs_pi4_le
    (by
      show |deg2rad 10 + 50 / earthRadius / Real.cos (deg2rad 45)| < π / 2
      obtain ⟨ht1, ht2⟩ := cos45_bounds
      have hu2 : (50 : ℝ) / earthRadius < 1 / 100000 := by unfold earthRadius; norm_num
      rw [deg2rad_10, abs_of_nonneg (by nlinarith [Real.pi_pos])]
      linarith [Real.pi_gt_three])]
  dsimp only
  rfl

lemma hw1C4 : (RhumbDestinationPoint ⟨10, 45⟩ 270 (50 * ((1 : ℕ) : ℝ))).lng = 10 - eC4 := by
  rw [show (50 : ℝ) * ((1 : ℕ) : ℝ) = 50 by norm_num]
  rw [rhumbDest_west ⟨10, 45⟩ 50 tan45_ne abs_pi4_le
    (by
      show |deg2rad 10 - 50 / earthRadius / Real.cos (deg2rad 45)| < π / 2
      obtain ⟨ht1, ht2⟩ := cos45_bounds
      have hu2 : (50 : ℝ) / earthRadius < 1 / 100000 := by unfold earthRadius; norm_num
      rw [deg2rad_10, abs_lt]
      constructor <;> linarith [Real.pi_gt_three])]
  dsimp only
  rfl

lemma rC4_bound : pointSetBound routeC4 = ⟨⟨10, 45⟩, ⟨10, 45⟩⟩ := rfl

lemma rC4_center : boundCenter ⟨⟨10, 45⟩, ⟨10, 45⟩⟩ = ⟨10, 45⟩ := by
  unfold boundCenter
  norm_num

lemma rC4_latGrid : rC4grid.latGrid = [45 - dC4, 45, 45 + dC4] := by
  unfold rC4grid buildGrid NewRouteBoxer
  dsimp only
  rw [rC4_bound, rC4_center]
  dsimp only
  rw [List.nil_append, hn1C4]
  rw [growNorth_of_not 3 (by simp)]
  rw [show (3 : ℕ) = 2 + 1 from rfl, growSouth_of_lt (by simp; linarith [dC4_pos])]
  rw [hs1C4]
  rw [growSouth_of_not 2 (by simp)]

lemma rC4_lngGrid : rC4grid.lngGrid = [10 - eC4, 10, 10 + eC4] := by
  unfold rC4grid buildGrid NewRouteBoxer
  dsimp only
  rw [rC4_bound, rC4_center]
  dsimp only
  rw [List.nil_append, he1C4]
  rw [growEast_of_not 3 (by simp)]
  rw [show (3 : ℕ) = 2 + 1 from rfl, growWest_of_lt (by simp; linarith [eC4_pos])]
  rw [hw1C4]
  rw [growWest_of_not 2 (by simp)]

lemma rC4_cell : getCellCoords rC4grid ⟨10, 45⟩ = (0, 0) := by
  unfold getCellCoords
  rw [rC4_lngGrid, rC4_latGrid]
  dsimp only
  rw [scanGE_cons_lt (by linarith [eC4_pos]), scanGE_cons_ge (lt_irrefl 10)]
  rw [scanGE_cons_lt (by linarith [dC4_pos]), scanGE_cons_ge (lt_irrefl 45)]
  rfl

/-- Claim C2.  The built grid has strictly increasing lines with a one-cell
margin, and consequently every `markCell` 3×3 access stays inside the coverage
grid — REFUTED in its safety part: for the single-point route [(10,45)] at
distance 50 the grid lines ARE strictly increasing, but the vertex lies
exactly on the centre line (index 1 of 3), `getCellCoords` therefore yields
cell (0,0), and the very first `markCell` writes index (-1,-1), outside the
3×3 coverage grid (an index-out-of-range panic in Go). -/
theorem C2_markCell_goes_out_of_bounds :
    rC4grid.latGrid = [45 - dC4, 45, 45 + dC4] ∧
    rC4grid.latGrid.Sorted (· < ·) ∧
    rC4grid.lngGrid.Sorted (· < ·) ∧
    getCellCoords rC4grid ⟨10, 45⟩ = (0, 0) ∧
    (-1, -1) ∈ markCellWrites ((0 : ℤ), (0 : ℤ)) ∧
    ¬ indexInBounds rC4grid (-1, -1) := by
  refine ⟨rC4_latGrid, ?_, ?_, rC4_cell, ?_, ?_⟩
  · rw [rC4_latGrid]
    simp [List.sorted_cons]
    constructor
    · constructor <;> linarith [dC4_pos]
    · linarith [dC4_pos]
  · rw [rC4_lngGrid]
    simp [List.sorted_cons]
    constructor
    · constructor <;> linarith [eC4_pos]
    · linarith [eC4_pos]
  · unfold markCellWrites
    simp
  · intro h
    have h1 := h.1
    norm_num at h1

/-- The cell in which `FindIntersectingCells` marks first: the brute-force
location of the first route vertex. -/
def firstVertexCell (r : RouteBoxer) : ℤ × ℤ :=
  getCellCoords r (r.vertices.headD ⟨0, 0⟩)

/-- Claim C4.  For the single-point route [(10,45)] at distance 50, `Boxes`
returns one rectangle of 3×3 cells and completes without out-of-bounds access
— REFUTED: the first `markCell` call of `FindIntersectingCells` writes
coverage-grid index (-1,-1), a Go index-out-of-range panic, so the
computation never completes; moreover the built grid has only 3 latitude and
3 longitude lines (2×2 cells), so no rectangle spanning 3×3 grid cells even
exists in it. -/
theorem C4_single_point_route_panics :
    firstVertexCell rC4grid = (0, 0) ∧
    (-1, -1) ∈ markCellWrites (firstVertexCell rC4grid) ∧
    ¬ indexInBounds rC4grid (-1, -1) ∧
    rC4grid.latGrid.length = 3 ∧
    rC4grid.lngGrid.length = 3 := by
  have hcell : firstVertexCell rC4grid = (0, 0) := by
    unfold firstVertexCell
    have hv : rC4grid.vertices = routeC4 := rfl
    rw [hv]
    exact rC4_cell
  refine ⟨hcell, ?_, ?_, ?_, ?_⟩
  · rw [hcell]
    unfold markCellWrites
    simp
  · intro h
    have h1 := h.1
    norm_num at h1
  · rw [rC4_latGrid]; rfl
  · rw [rC4_lngGrid]; rfl

/-! ### Shared evaluation of `buildGrid` for routes centred on (0,0) -/

lemma rad2deg_mul (c x : ℝ) : rad2deg (c * x) = c * rad2deg x := by
  unfold rad2deg; ring

lemma rad2deg_neg (x : ℝ) : rad2deg (-x) = -rad2deg x := by
  unfold rad2deg; ring

lemma deg2rad_rad2deg (x : ℝ) : deg2rad (rad2deg x) = x := by
  unfold rad2deg deg2rad
  field_simp

lemma tan0_ne : Real.tan (deg2rad 0 / 2 + π / 4) ≠ 0 := by
  rw [deg2rad_zero, zero_div, zero_add, Real.tan_pi_div_four]
  norm_num

lemma northVal (d' : ℝ) (h1 : (1e-10 : ℝ) ≤ d' / earthRadius) (h2 : d' / earthRadius ≤ 1) :
    (RhumbDestinationPoint ⟨0, 0⟩ 0 d').lat = rad2deg (d' / earthRadius) := by
  rw [rhumbDest_north ⟨0, 0⟩ d' h1
    (by
      show |deg2rad 0 + d' / earthRadius| ≤ π / 2
      rw [deg2rad_zero, zero_add, abs_of_nonneg (by linarith)]
      nlinarith [Real.pi_gt_three])
    (by
      show |deg2rad 0| < π / 2
      rw [deg2rad_zero, abs_zero]
      positivity)]
  dsimp only
  rw [zero_add]

lemma southVal (d' : ℝ) (h1 : (1e-10 : ℝ) ≤ d' / earthRadius) (h2 : d' / earthRadius ≤ 1) :
    (RhumbDestinationPoint ⟨0, 0⟩ 180 d').lat = -rad2deg (d' / earthRadius) := by
  rw [rhumbDest_south ⟨0, 0⟩ d' h1
    (by
      show |deg2rad 0 - d' / earthRadius| ≤ π / 2
      rw [deg2rad_zero, zero_sub, abs_neg, abs_of_nonneg (by linarith)]
      nlinarith [Real.pi_gt_three])
    (by
      show |deg2rad 0| < π / 2
      rw [deg2rad_zero, abs_zero]
      positivity)]
  dsimp only
  rw [zero_sub]

lemma eastVal (d' : ℝ) (h1 : (1e-10 : ℝ) ≤ d' / earthRadius) (h2 : d' / earthRadius ≤ 1) :
    (RhumbDestinationPoint ⟨0, 0⟩ 90 d').lng = rad2deg (d' / earthRadius) := by
  rw [rhumbDest_east ⟨0, 0⟩ d' tan0_ne
    (by rw [deg2rad_zero, abs_zero]; positivity)
    (by
      show |deg2rad 0 + d' / earthRadius / Real.cos (deg2rad 0)| < π / 2
      rw [deg2rad_zero, Real.cos_zero, div_one, zero_add, abs_of_nonneg (by linarith)]
      nlinarith [Real.pi_gt_three])]
  dsimp only
  rw [deg2rad_zero, Real.cos_zero, div_one, zero_add]

lemma westVal (d' : ℝ) (h1 : (1e-10 : ℝ) ≤ d' / earthRadius) (h2 : d' / earthRadius ≤ 1) :
    (RhumbDestinationPoint ⟨0, 0⟩ 270 d').lng = -rad2deg (d' / earthRadius) := by
  rw [rhumbDest_west ⟨0, 0⟩ d' tan0_ne
    (by rw [deg2rad_zero, abs_zero]; positivity)
    (by
      show |deg2rad 0 - d' / earthRadius / Real.cos (deg2rad 0)| < π / 2
      rw [deg2rad_zero, Real.cos_zero, div_one, zero_sub, abs_neg,
        abs_of_nonneg (by linarith)]
      nlinarith [Real.pi_gt_three])]
  dsimp only
  rw [deg2rad_zero, Real.cos_zero, div_one, zero_sub]

/-- Evaluation of `buildGrid` for a route whose bounding box is the square of
half-cell radius centred on the origin: both grid axes become the five lines
`-2w, -w, 0, w, 2w` where `w = rad2deg (dist / earthRadius)` is the cell size
in degrees. -/
lemma gridListEval (dist : ℝ) (route : List Point)
    (hd1 : (1e-10 : ℝ) ≤ dist / earthRadius) (hd2 : dist / earthRadius ≤ 1 / 2)
    (hb : pointSetBound route =
      ⟨⟨-(rad2deg (dist / earthRadius) / 2), -(rad2deg (dist / earthRadius) / 2)⟩,
       ⟨rad2deg (dist / earthRadius) / 2, rad2deg (dist / earthRadius) / 2⟩⟩) :
    (buildGrid 4 (NewRouteBoxer dist route)).latGrid =
      [-(2 * rad2deg (dist / earthRadius)), -rad2deg (dist / earthRadius), 0,
        rad2deg (dist / earthRadius), 2 * rad2deg (dist / earthRadius)] ∧
    (buildGrid 4 (NewRouteBoxer dist route)).lngGrid =
      [-(2 * rad2deg (dist / earthRadius)), -rad2deg (dist / earthRadius), 0,
        rad2deg (dist / earthRadius), 2 * rad2deg (dist / earthRadius)] := by
  have hw0 : 0 < rad2deg (dist / earthRadius) := rad2deg_pos (by linarith)
  set w := rad2deg (dist / earthRadius) with hwdef
  have hcenter : boundCenter ⟨⟨-(w / 2), -(w / 2)⟩, ⟨w / 2, w / 2⟩⟩ = ⟨0, 0⟩ := by
    unfold boundCenter
    norm_num
  have hv1 : (RhumbDestinationPoint ⟨0, 0⟩ 0 dist).lat = w := by
    rw [northVal dist hd1 (by linarith)]
  have hv2 : (RhumbDestinationPoint ⟨0, 0⟩ 0 (dist * ((2 : ℕ) : ℝ))).lat = 2 * w := by
    rw [northVal (dist * ((2 : ℕ) : ℝ))
      (by push_cast; rw [mul_comm dist 2, mul_div_assoc]; linarith)
      (by push_cast; rw [mul_comm dist 2, mul_div_assoc]; linarith)]
    push_cast
    rw [mul_comm dist 2, mul_div_assoc, rad2deg_mul]
  have hs1 : (RhumbDestinationPoint ⟨0, 0⟩ 180 (dist * ((1 : ℕ) : ℝ))).lat = -w := by
    rw [show dist * ((1 : ℕ) : ℝ) = dist by push_cast; ring]
    rw [southVal dist hd1 (by linarith)]
  have hs2 : (RhumbDestinationPoint ⟨0, 0⟩ 180 (dist * ((2 : ℕ) : ℝ))).lat = -(2 * w) := by
    rw [southVal (dist * ((2 : ℕ) : ℝ))
      (by push_cast; rw [mul_comm dist 2, mul_div_assoc]; linarith)
      (by push_cast; rw [mul_comm dist 2, mul_div_assoc]; linarith)]
    push_cast
    rw [mul_comm dist 2, mul_div_assoc, rad2deg_mul]
  have he1 : (RhumbDestinationPoint ⟨0, 0⟩ 90 dist).lng = w := by
    rw [eastVal dist hd1 (by linarith)]
  have he2 : (RhumbDestinationPoint ⟨0, 0⟩ 90 (dist * ((2 : ℕ) : ℝ))).lng = 2 * w := by
    rw [eastVal (dist * ((2 : ℕ) : ℝ))
      (by push_cast; rw [mul_comm dist 2, mul_div_assoc]; linarith)
      (by push_cast; rw [mul_comm dist 2, mul_div_assoc]; linarith)]
    push_cast
    rw [mul_comm dist 2, mul_div_assoc, rad2deg_mul]
  have hw1 : (RhumbDestinationPoint ⟨0, 0⟩ 270 (dist * ((1 : ℕ) : ℝ))).lng = -w := by
    rw [show dist * ((1 : ℕ) : ℝ) = dist by push_cast; ring]
    rw [westVal dist hd1 (by linarith)]
  have hw2 : (RhumbDestinationPoint ⟨0, 0⟩ 270 (dist * ((2 : ℕ) : ℝ))).lng = -(2 * w) := by
    rw [westVal (dist * ((2 : ℕ) : ℝ))
      (by push_cast; rw [mul_comm dist 2, mul_div_assoc]; linarith)
      (by push_cast; rw [mul_comm dist 2, mul_div_assoc]; linarith)]
    push_cast
    rw [mul_comm dist 2, mul_div_assoc, rad2deg_mul]
  constructor
  · unfold buildGrid NewRouteBoxer
    dsimp only
    rw [hb, hcenter]
    dsimp only
    rw [List.nil_append, hv1]
    rw [show (4 : ℕ) = 3 + 1 from rfl,
      growNorth_of_lt (by simp; linarith)]
    rw [hv2]
    rw [growNorth_of_not 3 (by simp; linarith)]
    rw [show (3 : ℕ) = 2 + 1 from rfl,
      growSouth_of_lt (by simp; linarith)]
    rw [hs1]
    rw [show (2 : ℕ) = 1 + 1 from rfl,
      growSouth_of_lt (by simp; linarith)]
    rw [hs2]
    rw [growSouth_of_not _ (by simp; linarith)]
    simp
  · unfold buildGrid NewRouteBoxer
    dsimp only
    rw [hb, hcenter]
    dsimp only
    rw [List.nil_append, he1]
    rw [show (4 : ℕ) = 3 + 1 from rfl,
      growEast_of_lt (by simp; linarith)]
    rw [he2]
    rw [growEast_of_not 3 (by simp; linarith)]
    rw [show (3 : ℕ) = 2 + 1 from rfl,
      growWest_of_lt (by simp; linarith)]
    rw [hw1]
    rw [show (2 : ℕ) = 1 + 1 from rfl,
      growWest_of_lt (by simp; linarith)]
    rw [hw2]
    rw [growWest_of_not _ (by simp; linarith)]
    simp

/-! ### The two concrete routes used for claims C1 and C7 -/

/-- Cell size (degrees) for distanceRange 50. -/
def wA : ℝ := rad2deg (50 / earthRadius)

/-- Cell size (degrees) for distanceRange 1000. -/
def wB : ℝ := rad2deg (1000 / earthRadius)

/-- Grid lines produced by `buildGrid` for the centred half-cell routes. -/
def listW (w : ℝ) : List ℝ := [-(2 * w), -w, 0, w, 2 * w]

/-- C1 route: one cell north, then one cell east, at cell-centre offsets. -/
def routeA : List Point := [⟨-(wA / 2), -(wA / 2)⟩, ⟨-(wA / 2), wA / 2⟩, ⟨wA / 2, wA / 2⟩]

/-- C7 route: one cell east, then one cell north, at cell-centre offsets. -/
def routeB : List Point := [⟨-(wB / 2), -(wB / 2)⟩, ⟨wB / 2, -(wB / 2)⟩, ⟨wB / 2, wB / 2⟩]

def rA1 : RouteBoxer := buildGrid 4 (NewRouteBoxer 50 routeA)

def rB1 : RouteBoxer := buildGrid 4 (NewRouteBoxer 1000 routeB)

lemma wA_pos : 0 < wA := rad2deg_pos (by unfold earthRadius; norm_num)

/-- wA is below half the 0.001° merge epsilon: two cells are epsilon-equal. -/
lemma wA_lt : wA < 1 / 2000 := by
  unfold wA rad2deg earthRadius
  rw [div_lt_iff₀ Real.pi_pos]
  nlinarith [Real.pi_gt_three]

lemma wB_pos : 0 < wB := rad2deg_pos (by unfold earthRadius; norm_num)

/-- wB exceeds the 0.001° merge epsilon: distinct spans never spuriously match. -/
lemma wB_gt : 1 / 1000 < wB := by
  unfold wB rad2deg earthRadius
  rw [lt_div_iff₀ Real.pi_pos]
  nlinarith [Real.pi_lt_d2]

lemma wB_lt : wB < 1 / 100 := by
  unfold wB rad2deg earthRadius
  rw [div_lt_iff₀ Real.pi_pos]
  nlinarith [Real.pi_gt_three]

lemma hd1A : (1e-10 : ℝ) ≤ 50 / earthRadius := by unfold earthRadius; norm_num

lemma hd2A : (50 : ℝ) / earthRadius ≤ 1 / 2 := by unfold earthRadius; norm_num

lemma hd1B : (1e-10 : ℝ) ≤ 1000 / earthRadius := by unfold earthRadius; norm_num

lemma hd2B : (1000 : ℝ) / earthRadius ≤ 1 / 2 := by unfold earthRadius; norm_num

lemma hbA : pointSetBound routeA = ⟨⟨-(wA / 2), -(wA / 2)⟩, ⟨wA / 2, wA / 2⟩⟩ := by
  have h0 := wA_pos
  have hmm : min (-(wA / 2)) (wA / 2) = -(wA / 2) := min_eq_left (by linarith)
  have hmx : max (-(wA / 2)) (wA / 2) = wA / 2 := max_eq_right (by linarith)
  unfold routeA pointSetBound
  simp only [List.foldl_cons, List.foldl_nil]
  unfold extendB
  dsimp only
  simp only [min_self, max_self, hmm, hmx]

lemma hbB : pointSetBound routeB = ⟨⟨-(wB / 2), -(wB / 2)⟩, ⟨wB / 2, wB / 2⟩⟩ := by
  have h0 := wB_pos
  have hmm : min (-(wB / 2)) (wB / 2) = -(wB / 2) := min_eq_left (by linarith)
  have hmx : max (-(wB / 2)) (wB / 2) = wB / 2 := max_eq_right (by linarith)
  unfold routeB pointSetBound
  simp only [List.foldl_cons, List.foldl_nil]
  unfold extendB
  dsimp only
  simp only [min_self, max_self, hmm, hmx]

lemma rA1_latGrid : rA1.latGrid = listW wA :=
  (gridListEval 50 routeA hd1A hd2A hbA).1

lemma rA1_lngGrid : rA1.lngGrid = listW wA :=
  (gridListEval 50 routeA hd1A hd2A hbA).2

lemma rB1_latGrid : rB1.latGrid = listW wB :=
  (gridListEval 1000 routeB hd1B hd2B hbB).1

lemma rB1_lngGrid : rB1.lngGrid = listW wB :=
  (gridListEval 1000 routeB hd1B hd2B hbB).2

/-! ### `lineAt` on the five-line grids -/

lemma lineW0 (w : ℝ) : lineAt (listW w) 0 = -(2 * w) := by
  unfold listW lineAt
  norm_num

lemma lineW1 (w : ℝ) : lineAt (listW w) 1 = -w := by
  unfold listW lineAt
  norm_num

lemma lineW2 (w : ℝ) : lineAt (listW w) 2 = 0 := by
  unfold listW lineAt
  norm_num
  rfl

lemma lineW3 (w : ℝ) : lineAt (listW w) 3 = w := by
  unfold listW lineAt
  norm_num
  rfl

lemma lineW4 (w : ℝ) : lineAt (listW w) 4 = 2 * w := by
  unfold listW lineAt
  norm_num
  rfl

lemma listW_length (w : ℝ) : (listW w).length = 5 := rfl

/-! ### Scan evaluations on the five-line grids -/

lemma scanW_neghalf {w : ℝ} (h : 0 < w) : scanGE (listW w) (-(w / 2)) = 2 := by
  unfold listW
  rw [scanGE_cons_lt (by linarith), scanGE_cons_lt (by linarith),
    scanGE_cons_ge (by linarith)]

lemma scanFwd_half {w : ℝ} (h : 0 < w) : scanFwd (listW w) (w / 2) 7 1 = 2 := by
  rw [show (7 : ℕ) = 6 + 1 from rfl,
    scanFwd_step (by rw [show ((1 : ℤ) + 1) = 2 by decide, lineW2]; linarith)]
  rw [show (6 : ℕ) = 5 + 1 from rfl,
    scanFwd_stop (by rw [show ((1 : ℤ) + 1 + 1) = 3 by decide, lineW3]; intro hc; linarith)]
  decide

lemma scanFwd_edge {w : ℝ} (h : 0 < w) :
    scanFwd (listW w) (-(w / 2) + w / 2000) 7 1 = 1 := by
  rw [show (7 : ℕ) = 6 + 1 from rfl,
    scanFwd_stop (by rw [show ((1 : ℤ) + 1) = 2 by decide, lineW2]; intro hc; linarith)]

lemma scanBwd_neghalf_at1 {w : ℝ} (h : 0 < w) :
    scanBwd (listW w) (-(w / 2)) 7 1 = 1 := by
  rw [show (7 : ℕ) = 6 + 1 from rfl,
    scanBwd_stop (by rw [lineW1]; intro hc; linarith)]

lemma scanBwd_half_at2 {w : ℝ} (h : 0 < w) : scanBwd (listW w) (w / 2) 7 2 = 2 := by
  rw [show (7 : ℕ) = 6 + 1 from rfl,
    scanBwd_stop (by rw [lineW2]; intro hc; linarith)]

/-- Generic location of the south-west cell-centre vertex. -/
lemma cellW {r : RouteBoxer} {w : ℝ} (hlng : r.lngGrid = listW w) (hlat : r.latGrid = listW w)
    (h : 0 < w) : getCellCoords r ⟨-(w / 2), -(w / 2)⟩ = (1, 1) := by
  unfold getCellCoords
  rw [hlng, hlat]
  dsimp only
  rw [scanW_neghalf h]
  rfl

/-! ### Hint-based locations used in the two traces -/

lemma hintNorthFrom11 {r : RouteBoxer} {w : ℝ} (hlng : r.lngGrid = listW w)
    (hlat : r.latGrid = listW w) (h : 0 < w) :
    getGridCoordsFromHint r ⟨-(w / 2), w / 2⟩ ⟨-(w / 2), -(w / 2)⟩ (1, 1) = (1, 2) := by
  unfold getGridCoordsFromHint
  rw [hlng, hlat, listW_length]
  dsimp only
  rw [if_neg (lt_irrefl (-(w / 2))), if_pos (by linarith : -(w / 2) < w / 2)]
  rw [show (5 + 2 : ℕ) = 7 from rfl]
  rw [scanFwd_half h, scanBwd_neghalf_at1 h]

lemma hintEastFrom12 {r : RouteBoxer} {w : ℝ} (hlng : r.lngGrid = listW w)
    (hlat : r.latGrid = listW w) (h : 0 < w) :
    getGridCoordsFromHint r ⟨w / 2, w / 2⟩ ⟨-(w / 2), w / 2⟩ (1, 2) = (2, 2) := by
  unfold getGridCoordsFromHint
  rw [hlng, hlat, listW_length]
  dsimp only
  rw [if_pos (by linarith : -(w / 2) < w / 2), if_neg (lt_irrefl (w / 2))]
  rw [show (5 + 2 : ℕ) = 7 from rfl]
  rw [scanFwd_half h, scanBwd_half_at2 h]

lemma hintEdgeFrom11 {r : RouteBoxer} {w : ℝ} (hlng : r.lngGrid = listW w)
    (hlat : r.latGrid = listW w) (h : 0 < w) :
    getGridCoordsFromHint r ⟨-(w / 2), -(w / 2) + w / 2000⟩ ⟨-(w / 2), -(w / 2)⟩ (1, 1) =
      (1, 1) := by
  unfold getGridCoordsFromHint
  rw [hlng, hlat, listW_length]
  dsimp only
  rw [if_neg (lt_irrefl (-(w / 2))), if_pos (by linarith : -(w / 2) < -(w / 2) + w / 2000)]
  rw [show (5 + 2 : ℕ) = 7 from rfl]
  rw [scanFwd_edge h, scanBwd_neghalf_at1 h]

lemma hintEastFrom11 {r : RouteBoxer} {w : ℝ} (hlng : r.lngGrid = listW w)
    (hlat : r.latGrid = listW w) (h : 0 < w) :
    getGridCoordsFromHint r ⟨w / 2, -(w / 2)⟩ ⟨-(w / 2), -(w / 2)⟩ (1, 1) = (2, 1) := by
  unfold getGridCoordsFromHint
  rw [hlng, hlat, listW_length]
  dsimp only
  rw [if_pos (by linarith : -(w / 2) < w / 2), if_neg (lt_irrefl (-(w / 2)))]
  rw [show (5 + 2 : ℕ) = 7 from rfl]
  rw [scanFwd_half h, scanBwd_neghalf_at1 h]

lemma hintNorthFrom21 {r : RouteBoxer} {w : ℝ} (hlng : r.lngGrid = listW w)
    (hlat : r.latGrid = listW w) (h : 0 < w) :
    getGridCoordsFromHint r ⟨w / 2, w / 2⟩ ⟨w / 2, -(w / 2)⟩ (2, 1) = (2, 2) := by
  unfold getGridCoordsFromHint
  rw [hlng, hlat, listW_length]
  dsimp only
  rw [if_neg (lt_irrefl (w / 2)), if_pos (by linarith : -(w / 2) < w / 2)]
  rw [show (5 + 2 : ℕ) = 7 from rfl]
  rw [scanFwd_half h, scanBwd_half_at2 h]

lemma hintEdgeFrom21 {r : RouteBoxer} {w : ℝ} (hlng : r.lngGrid = listW w)
    (hlat : r.latGrid = listW w) (h : 0 < w) :
    getGridCoordsFromHint r ⟨w / 2, -(w / 2) + w / 2000⟩ ⟨w / 2, -(w / 2)⟩ (2, 1) =
      (2, 1) := by
  unfold getGridCoordsFromHint
  rw [hlng, hlat, listW_length]
  dsimp only
  rw [if_neg (lt_irrefl (w / 2)), if_pos (by linarith : -(w / 2) < -(w / 2) + w / 2000)]
  rw [show (5 + 2 : ℕ) = 7 from rfl]
  rw [scanFwd_edge h, scanBwd_half_at2 h]

/-! ### Bearing, intersect point and fill evaluations -/

lemma deg2rad_small_abs {x : ℝ} (h0 : |x| < 90) : |deg2rad x| < π / 2 := by
  unfold deg2rad
  rw [abs_div, abs_mul, abs_of_nonneg Real.pi_pos.le, abs_of_nonneg (by norm_num : (0:ℝ) ≤ 180)]
  rw [div_lt_iff₀ (by norm_num : (0:ℝ) < 180)]
  nlinarith [Real.pi_pos, abs_nonneg x]

lemma bearingW {w : ℝ} (h0 : 0 < w) (h1 : w < 1) (c : ℝ) :
    RhumBearingTo ⟨c, -(w / 2)⟩ ⟨c, w / 2⟩ = 0 := by
  apply bearing_due_north ⟨c, -(w / 2)⟩ ⟨c, w / 2⟩ rfl
  · show -(π / 2) < deg2rad (-(w / 2))
    have := deg2rad_small_abs (x := -(w / 2)) (by rw [abs_neg, abs_of_nonneg (by linarith)]; linarith)
    rw [abs_lt] at this
    linarith [this.1]
  · show deg2rad (-(w / 2)) < deg2rad (w / 2)
    unfold deg2rad
    have := Real.pi_pos
    rw [div_lt_div_iff₀ (by norm_num) (by norm_num)]
    nlinarith
  · show deg2rad (w / 2) < π / 2
    have := deg2rad_small_abs (x := w / 2) (by rw [abs_of_nonneg (by linarith)]; linarith)
    rw [abs_lt] at this
    exact this.2

/-- The (buggy) crossing point of a half-cell-south start towards latitude
line 0 with bearing 0: the latitude advances by only `w / 2000`. -/
lemma edgePointW (dist c : ℝ)
    (hsnap2 : (1e-10 : ℝ) ≤ dist / earthRadius / 2000)
    (hd2 : dist / earthRadius ≤ 1 / 2)
    (hc : |deg2rad c| < π / 2) :
    getGridIntersect ⟨c, -(rad2deg (dist / earthRadius) / 2)⟩ 0 0 =
      ⟨c, -(rad2deg (dist / earthRadius) / 2) + rad2deg (dist / earthRadius) / 2000⟩ := by
  have hR : (earthRadius : ℝ) ≠ 0 := by unfold earthRadius; norm_num
  have hd : deg2rad (-(rad2deg (dist / earthRadius) / 2)) = -(dist / earthRadius / 2) := by
    rw [show -(rad2deg (dist / earthRadius) / 2) = -(1 / 2) * rad2deg (dist / earthRadius)
      by ring]
    rw [show deg2rad (-(1 / 2) * rad2deg (dist / earthRadius)) =
      -(1 / 2) * deg2rad (rad2deg (dist / earthRadius)) by unfold deg2rad; ring]
    rw [deg2rad_rad2deg]
    ring
  have h10 : (0 : ℝ) < dist / earthRadius / 2000 := by linarith [hsnap2]
  have hdist : getGridIntersectDist ⟨c, -(rad2deg (dist / earthRadius) / 2)⟩ 0 0 =
      dist / 2000 := by
    unfold getGridIntersectDist
    dsimp only
    rw [deg2rad_zero, Real.cos_zero, hd]
    field_simp
    ring
  have h2000 : dist / 2000 / earthRadius = dist / earthRadius / 2000 := by ring
  have hsn : (1e-10 : ℝ) ≤ dist / 2000 / earthRadius := by rw [h2000]; exact hsnap2
  have hrefl : |deg2rad (Point.lat ⟨c, -(rad2deg (dist / earthRadius) / 2)⟩) +
      dist / 2000 / earthRadius| ≤ π / 2 := by
    show |deg2rad (-(rad2deg (dist / earthRadius) / 2)) + dist / 2000 / earthRadius| ≤ π / 2
    rw [hd, h2000, abs_le]
    constructor <;> nlinarith [Real.pi_gt_three]
  have hlng : |deg2rad (Point.lng ⟨c, -(rad2deg (dist / earthRadius) / 2)⟩)| < π / 2 := by
    show |deg2rad c| < π / 2
    exact hc
  unfold getGridIntersect
  rw [hdist]
  rw [rhumbDest_north ⟨c, -(rad2deg (dist / earthRadius) / 2)⟩ (dist / 2000) hsn hrefl hlng]
  rw [h2000]
  rw [show dist / earthRadius / 2000 = (1 / 2000) * (dist / earthRadius) by ring, rad2deg_mul]
  dsimp only
  rw [show (1 / 2000 : ℝ) * rad2deg (dist / earthRadius) = rad2deg (dist / earthRadius) / 2000
    by ring]

lemma fill_one (g : ℤ → ℤ → Bool) (x y : ℤ) :
    fillInGridSquares g x x y = markCell g (x, y) := by
  unfold fillInGridSquares
  rw [if_neg (lt_irrefl x), sub_self]
  rfl

lemma fill_two (g : ℤ → ℤ → Bool) (startx endx y : ℤ) (hx : endx = startx + 1) :
    fillInGridSquares g startx endx y = markCell (markCell g (startx, y)) (endx, y) := by
  subst hx
  unfold fillInGridSquares
  rw [if_pos (lt_add_one startx)]
  rw [show startx + 1 - startx = 1 by ring]
  rfl

/-! ### Trace step lemmas -/

lemma northTrace_succ (r : RouteBoxer) (start : Point) (brng : ℝ) (endXY : ℤ × ℤ)
    (n : ℕ) (hint : Point) (hintXY : ℤ × ℤ) (i : ℤ) (g : ℤ → ℤ → Bool) :
    northTrace r start brng endXY (n + 1) hint hintXY i g =
      northTrace r start brng endXY n
        (getGridIntersect start brng (lineAt r.latGrid i))
        (getGridCoordsFromHint r (getGridIntersect start brng (lineAt r.latGrid i))
          hint hintXY)
        (i + 1)
        (fillInGridSquares g hintXY.1
          (getGridCoordsFromHint r (getGridIntersect start brng (lineAt r.latGrid i))
            hint hintXY).1 (i - 1)) := rfl

lemma northTrace_zero (r : RouteBoxer) (start : Point) (brng : ℝ) (endXY : ℤ × ℤ)
    (hint : Point) (hintXY : ℤ × ℤ) (i : ℤ) (g : ℤ → ℤ → Bool) :
    northTrace r start brng endXY 0 hint hintXY i g =
      fillInGridSquares g hintXY.1 endXY.1 (i - 1) := rfl

lemma southTrace_zero (r : RouteBoxer) (start : Point) (brng : ℝ) (endXY : ℤ × ℤ)
    (hint : Point) (hintXY : ℤ × ℤ) (i : ℤ) (g : ℤ → ℤ → Bool) :
    southTrace r start brng endXY 0 hint hintXY i g =
      fillInGridSquares g hintXY.1 endXY.1 i := rfl

lemma markCell_app (g : ℤ → ℤ → Bool) (c : ℤ × ℤ) (a b : ℤ) :
    markCell g c a b =
      (decide (c.1 - 1 ≤ a ∧ a ≤ c.1 + 1 ∧ c.2 - 1 ≤ b ∧ b ≤ c.2 + 1) || g a b) := by
  unfold markCell
  by_cases h : c.1 - 1 ≤ a ∧ a ≤ c.1 + 1 ∧ c.2 - 1 ≤ b ∧ b ≤ c.2 + 1
  · rw [if_pos h]
    simp [h]
  · rw [if_neg h, decide_eq_false h, Bool.false_or]

/-! ### The marking trace of route A (claim C1) -/

lemma wA_lt_one : wA < 1 := by linarith [wA_lt]

lemma edgeA : getGridIntersect ⟨-(wA / 2), -(wA / 2)⟩ 0 0 =
    ⟨-(wA / 2), -(wA / 2) + wA / 2000⟩ := by
  exact edgePointW 50 (-(wA / 2))
    (by unfold earthRadius; norm_num)
    hd2A
    (deg2rad_small_abs (by
      rw [abs_neg, abs_of_nonneg (by linarith [wA_pos])]
      linarith [wA_lt]))

lemma stepA1 (g : ℤ → ℤ → Bool) :
    viStep rA1 (⟨-(wA / 2), -(wA / 2)⟩, (1, 1), g) ⟨-(wA / 2), wA / 2⟩ =
      (⟨-(wA / 2), wA / 2⟩, (1, 2), markCell (markCell g (1, 1)) (1, 2)) := by
  unfold viStep
  dsimp only
  rw [hintNorthFrom11 rA1_lngGrid rA1_latGrid wA_pos]
  rw [if_neg (by decide), if_neg (by decide)]
  unfold getGridIntersects
  dsimp only
  rw [bearingW wA_pos wA_lt_one (-(wA / 2))]
  rw [if_pos (by linarith [wA_pos] : -(wA / 2) < wA / 2)]
  rw [show ((1 : ℤ) + 1) = 2 by decide]
  rw [show ((2 : ℤ) - 1).toNat = 0 + 1 by decide]
  rw [northTrace_succ]
  rw [rA1_latGrid, lineW2, edgeA]
  rw [hintEdgeFrom11 rA1_lngGrid rA1_latGrid wA_pos]
  dsimp only
  rw [show ((2 : ℤ) - 1) = 1 by decide]
  rw [fill_one]
  rw [northTrace_zero]
  rw [show ((2 : ℤ) + 1 - 1) = 2 by decide]
  rw [fill_one]

lemma stepA2 (g : ℤ → ℤ → Bool) :
    viStep rA1 (⟨-(wA / 2), wA / 2⟩, (1, 2), g) ⟨wA / 2, wA / 2⟩ =
      (⟨wA / 2, wA / 2⟩, (2, 2), markCell (markCell g (1, 2)) (2, 2)) := by
  unfold viStep
  dsimp only
  rw [hintEastFrom12 rA1_lngGrid rA1_latGrid wA_pos]
  rw [if_neg (by decide), if_neg (by decide)]
  unfold getGridIntersects
  dsimp only
  rw [if_neg (lt_irrefl (wA / 2))]
  rw [show ((2 : ℤ) - 2).toNat = 0 by decide]
  rw [southTrace_zero]
  dsimp only
  rw [fill_two _ _ _ _ (by decide)]

/-- The coverage grid produced for route A: the 3×3 dilations of the path
cells (1,1), (1,2), (2,2). -/
def gA : ℤ → ℤ → Bool := fun x y =>
  decide ((0 ≤ x ∧ x ≤ 2 ∧ 0 ≤ y ∧ y ≤ 2) ∨ (0 ≤ x ∧ x ≤ 2 ∧ 1 ≤ y ∧ y ≤ 3) ∨
    (1 ≤ x ∧ x ≤ 3 ∧ 1 ≤ y ∧ y ≤ 3))

lemma chainA :
    markCell (markCell (markCell (markCell (markCell (fun _ _ => false) (1, 1)) (1, 1))
      (1, 2)) (1, 2)) (2, 2) = gA := by
  funext a b
  simp only [markCell_app]
  unfold gA
  simp only [Bool.or_false]
  rw [← Bool.decide_or, ← Bool.decide_or, ← Bool.decide_or, ← Bool.decide_or]
  rw [decide_eq_decide]
  omega

lemma findA : FindIntersectingCells rA1 = some { rA1 with grid := gA } := by
  unfold FindIntersectingCells
  rw [show rA1.vertices = routeA from rfl]
  unfold routeA
  dsimp only
  rw [cellW rA1_lngGrid rA1_latGrid wA_pos]
  rw [show rA1.grid = (fun _ _ => false) from rfl]
  rw [List.foldl_cons, stepA1, List.foldl_cons, stepA2, List.foldl_nil]
  rw [chainA]
  rfl

/-! ### The marking trace of route B (claim C7) -/

lemma wB_lt_one : wB < 1 := by linarith [wB_lt]

lemma edgeB : getGridIntersect ⟨wB / 2, -(wB / 2)⟩ 0 0 =
    ⟨wB / 2, -(wB / 2) + wB / 2000⟩ := by
  exact edgePointW 1000 (wB / 2)
    (by unfold earthRadius; norm_num)
    hd2B
    (deg2rad_small_abs (by
      rw [abs_of_nonneg (by linarith [wB_pos])]
      linarith [wB_lt]))

lemma stepB1 (g : ℤ → ℤ → Bool) :
    viStep rB1 (⟨-(wB / 2), -(wB / 2)⟩, (1, 1), g) ⟨wB / 2, -(wB / 2)⟩ =
      (⟨wB / 2, -(wB / 2)⟩, (2, 1), markCell (markCell g (1, 1)) (2, 1)) := by
  unfold viStep
  dsimp only
  rw [hintEastFrom11 rB1_lngGrid rB1_latGrid wB_pos]
  rw [if_neg (by decide), if_neg (by decide)]
  unfold getGridIntersects
  dsimp only
  rw [if_neg (lt_irrefl (-(wB / 2)))]
  rw [show ((1 : ℤ) - 1).toNat = 0 by decide]
  rw [southTrace_zero]
  dsimp only
  rw [fill_two _ _ _ _ (by decide)]

lemma stepB2 (g : ℤ → ℤ → Bool) :
    viStep rB1 (⟨wB / 2, -(wB / 2)⟩, (2, 1), g) ⟨wB / 2, wB / 2⟩ =
      (⟨wB / 2, wB / 2⟩, (2, 2), markCell (markCell g (2, 1)) (2, 2)) := by
  unfold viStep
  dsimp only
  rw [hintNorthFrom21 rB1_lngGrid rB1_latGrid wB_pos]
  rw [if_neg (by decide), if_neg (by decide)]
  unfold getGridIntersects
  dsimp only
  rw [bearingW wB_pos wB_lt_one (wB / 2)]
  rw [if_pos (by linarith [wB_pos] : -(wB / 2) < wB / 2)]
  rw [show ((1 : ℤ) + 1) = 2 by decide]
  rw [show ((2 : ℤ) - 1).toNat = 0 + 1 by decide]
  rw [northTrace_succ]
  rw [rB1_latGrid, lineW2, edgeB]
  rw [hintEdgeFrom21 rB1_lngGrid rB1_latGrid wB_pos]
  dsimp only
  rw [show ((2 : ℤ) - 1) = 1 by decide]
  rw [fill_one]
  rw [northTrace_zero]
  rw [show ((2 : ℤ) + 1 - 1) = 2 by decide]
  rw [fill_one]

/-- The coverage grid produced for route B: the 3×3 dilations of the path
cells (1,1), (2,1), (2,2). -/
def gB : ℤ → ℤ → Bool := fun x y =>
  decide ((0 ≤ x ∧ x ≤ 2 ∧ 0 ≤ y ∧ y ≤ 2) ∨ (1 ≤ x ∧ x ≤ 3 ∧ 0 ≤ y ∧ y ≤ 2) ∨
    (1 ≤ x ∧ x ≤ 3 ∧ 1 ≤ y ∧ y ≤ 3))

lemma chainB :
    markCell (markCell (markCell (markCell (markCell (fun _ _ => false) (1, 1)) (1, 1))
      (2, 1)) (2, 1)) (2, 2) = gB := by
  funext a b
  simp only [markCell_app]
  unfold gB
  simp only [Bool.or_false]
  rw [← Bool.decide_or, ← Bool.decide_or, ← Bool.decide_or, ← Bool.decide_or]
  rw [decide_eq_decide]
  omega

lemma findB : FindIntersectingCells rB1 = some { rB1 with grid := gB } := by
  unfold FindIntersectingCells
  rw [show rB1.vertices = routeB from rfl]
  unfold routeB
  dsimp only
  rw [cellW rB1_lngGrid rB1_latGrid wB_pos]
  rw [show rB1.grid = (fun _ _ => false) from rfl]
  rw [List.foldl_cons, stepB1, List.foldl_cons, stepB2, List.foldl_nil]
  rw [chainB]
  rfl

/-! ### Box algebra over the five-line grids -/

/-- The geographic rectangle covering grid cells `x0..x1` × `y0..y1` of a
`listW w` grid. -/
def bxW (w : ℝ) (x0 y0 x1 y1 : ℤ) : Bound :=
  ⟨⟨((x0 : ℝ) - 2) * w, ((y0 : ℝ) - 2) * w⟩, ⟨((x1 : ℝ) - 1) * w, ((y1 : ℝ) - 1) * w⟩⟩

lemma bxW_ne (w : ℝ) (x0 y0 x1 y1 : ℤ) :
    (bxW w x0 y0 x1 y1).ne = ⟨((x1 : ℝ) - 1) * w, ((y1 : ℝ) - 1) * w⟩ := rfl

lemma lineAtW {w : ℝ} (i : ℤ) (h0 : 0 ≤ i) (h4 : i ≤ 4) :
    lineAt (listW w) i = ((i : ℝ) - 2) * w := by
  interval_cases i
  · rw [lineW0]; push_cast; ring
  · rw [lineW1]; push_cast; ring
  · rw [lineW2]; push_cast; ring
  · rw [lineW3]; push_cast; ring
  · rw [lineW4]; push_cast; ring

lemma cellBoundsW {r : RouteBoxer} {w : ℝ} (hlng : r.lngGrid = listW w)
    (hlat : r.latGrid = listW w) (hw : 0 < w) (x y : ℤ)
    (hx0 : 0 ≤ x) (hx3 : x ≤ 3) (hy0 : 0 ≤ y) (hy3 : y ≤ 3) :
    getCellBounds r (x, y) = bxW w x y x y := by
  unfold getCellBounds boundFromPoints bxW
  dsimp only
  rw [hlng, hlat]
  rw [lineAtW x hx0 (by omega), lineAtW y hy0 (by omega),
    lineAtW (x + 1) (by omega) (by omega), lineAtW (y + 1) (by omega) (by omega)]
  have hcx : ((x : ℝ) - 2) ≤ (((x + 1 : ℤ) : ℝ) - 2) := by push_cast; linarith
  have hcy : ((y : ℝ) - 2) ≤ (((y + 1 : ℤ) : ℝ) - 2) := by push_cast; linarith
  rw [min_eq_left (mul_le_mul_of_nonneg_right hcx hw.le),
    min_eq_left (mul_le_mul_of_nonneg_right hcy hw.le),
    max_eq_right (mul_le_mul_of_nonneg_right hcx hw.le),
    max_eq_right (mul_le_mul_of_nonneg_right hcy hw.le)]
  have e1 : (((x + 1 : ℤ) : ℝ) - 2) * w = ((x : ℝ) - 1) * w := by push_cast; ring
  have e2 : (((y + 1 : ℤ) : ℝ) - 2) * w = ((y : ℝ) - 1) * w := by push_cast; ring
  rw [e1, e2]

lemma extend_bxW {w : ℝ} (hw : 0 ≤ w) (x0 y0 x1 y1 g h : ℤ)
    (h1 : x0 ≤ g + 1) (h2 : y0 ≤ h + 1) (h3 : x1 ≤ g) (h4 : y1 ≤ h) :
    extendB (bxW w x0 y0 x1 y1) ⟨((g : ℝ) - 1) * w, ((h : ℝ) - 1) * w⟩ =
      bxW w x0 y0 g h := by
  unfold extendB bxW
  dsimp only
  have hc1 : ((x0 : ℝ) - 2) ≤ ((g : ℝ) - 1) := by
    have hcast : ((x0 : ℝ)) ≤ (g : ℝ) + 1 := by exact_mod_cast h1
    linarith
  have hc2 : ((y0 : ℝ) - 2) ≤ ((h : ℝ) - 1) := by
    have hcast : ((y0 : ℝ)) ≤ (h : ℝ) + 1 := by exact_mod_cast h2
    linarith
  have hc3 : ((x1 : ℝ) - 1) ≤ ((g : ℝ) - 1) := by
    have hcast : ((x1 : ℝ)) ≤ (g : ℝ) := by exact_mod_cast h3
    linarith
  have hc4 : ((y1 : ℝ) - 1) ≤ ((h : ℝ) - 1) := by
    have hcast : ((y1 : ℝ)) ≤ (h : ℝ) := by exact_mod_cast h4
    linarith
  rw [min_eq_left (mul_le_mul_of_nonneg_right hc1 hw),
    min_eq_left (mul_le_mul_of_nonneg_right hc2 hw),
    max_eq_right (mul_le_mul_of_nonneg_right hc3 hw),
    max_eq_right (mul_le_mul_of_nonneg_right hc4 hw)]

/-! ### Step lemmas for the merge loops -/

lemma rowScanX_true_none {r : RouteBoxer} {y : ℤ} {n : ℕ} {x : ℤ} {acc : List Bound}
    (h : r.grid x y = true) :
    rowScanX r y (n + 1) x (none, acc) =
      rowScanX r y n (x + 1) (some (getCellBounds r (x, y)), acc) := by
  show (if r.grid x y = true then rowScanX r y n (x + 1) (some (getCellBounds r (x, y)), acc)
    else rowScanX r y n (x + 1) (none, mergeBoxesYOpt acc none)) = _
  rw [if_pos h]

lemma rowScanX_true_some {r : RouteBoxer} {y : ℤ} {n : ℕ} {x : ℤ} {cb : Bound}
    {acc : List Bound} (h : r.grid x y = true) :
    rowScanX r y (n + 1) x (some cb, acc) =
      rowScanX r y n (x + 1) (some (extendB cb (getCellBounds r (x, y)).ne), acc) := by
  show (if r.grid x y = true then
      rowScanX r y n (x + 1) (some (extendB cb (getCellBounds r (x, y)).ne), acc)
    else rowScanX r y n (x + 1) (none, mergeBoxesYOpt acc (some cb))) = _
  rw [if_pos h]

lemma rowScanX_false {r : RouteBoxer} {y : ℤ} {n : ℕ} {x : ℤ} {cur : Option Bound}
    {acc : List Bound} (h : r.grid x y = false) :
    rowScanX r y (n + 1) x (cur, acc) =
      rowScanX r y n (x + 1) (none, mergeBoxesYOpt acc cur) := by
  cases cur with
  | none =>
    show (if r.grid x y = true then rowScanX r y n (x + 1)
        (some (getCellBounds r (x, y)), acc)
      else rowScanX r y n (x + 1) (none, mergeBoxesYOpt acc none)) = _
    rw [if_neg (by rw [h]; simp)]
  | some cb =>
    show (if r.grid x y = true then
        rowScanX r y n (x + 1) (some (extendB cb (getCellBounds r (x, y)).ne), acc)
      else rowScanX r y n (x + 1) (none, mergeBoxesYOpt acc (some cb))) = _
    rw [if_neg (by rw [h]; simp)]

lemma rowScanX_zero {r : RouteBoxer} {y : ℤ} {x : ℤ} {s : Option Bound × List Bound} :
    rowScanX r y 0 x s = s := rfl

lemma colScanY_true_none {r : RouteBoxer} {x : ℤ} {n : ℕ} {y : ℤ} {acc : List Bound}
    (h : r.grid x y = true) :
    colScanY r x (n + 1) y (none, acc) =
      colScanY r x n (y + 1) (some (getCellBounds r (x, y)), acc) := by
  show (if r.grid x y = true then colScanY r x n (y + 1) (some (getCellBounds r (x, y)), acc)
    else colScanY r x n (y + 1) (none, mergeBoxesXOpt acc none)) = _
  rw [if_pos h]

lemma colScanY_true_some {r : RouteBoxer} {x : ℤ} {n : ℕ} {y : ℤ} {cb : Bound}
    {acc : List Bound} (h : r.grid x y = true) :
    colScanY r x (n + 1) y (some cb, acc) =
      colScanY r x n (y + 1) (some (extendB cb (getCellBounds r (x, y)).ne), acc) := by
  show (if r.grid x y = true then
      colScanY r x n (y + 1) (some (extendB cb (getCellBounds r (x, y)).ne), acc)
    else colScanY r x n (y + 1) (none, mergeBoxesXOpt acc (some cb))) = _
  rw [if_pos h]

lemma colScanY_false {r : RouteBoxer} {x : ℤ} {n : ℕ} {y : ℤ} {cur : Option Bound}
    {acc : List Bound} (h : r.grid x y = false) :
    colScanY r x (n + 1) y (cur, acc) =
      colScanY r x n (y + 1) (none, mergeBoxesXOpt acc cur) := by
  cases cur with
  | none =>
    show (if r.grid x y = true then colScanY r x n (y + 1)
        (some (getCellBounds r (x, y)), acc)
      else colScanY r x n (y + 1) (none, mergeBoxesXOpt acc none)) = _
    rw [if_neg (by rw [h]; simp)]
  | some cb =>
    show (if r.grid x y = true then
        colScanY r x n (y + 1) (some (extendB cb (getCellBounds r (x, y)).ne), acc)
      else colScanY r x n (y + 1) (none, mergeBoxesXOpt acc (some cb))) = _
    rw [if_neg (by rw [h]; simp)]

lemma colScanY_zero {r : RouteBoxer} {x : ℤ} {y : ℤ} {s : Option Bound × List Bound} :
    colScanY r x 0 y s = s := rfl

lemma mergeBoxesYOpt_none (acc : List Bound) : mergeBoxesYOpt acc none = acc := rfl

lemma mergeBoxesYOpt_some (acc : List Bound) (box : Bound) :
    mergeBoxesYOpt acc (some box) = mergeBoxesY acc box := rfl

lemma mergeBoxesXOpt_none (acc : List Bound) : mergeBoxesXOpt acc none = acc := rfl

lemma mergeBoxesXOpt_some (acc : List Bound) (box : Bound) :
    mergeBoxesXOpt acc (some box) = mergeBoxesX acc box := rfl

lemma mergeBoxesY_nil (box : Bound) : mergeBoxesY [] box = [box] := rfl

lemma mergeBoxesY_hit {b : Bound} {rest : List Bound} {box : Bound}
    (h : |b.ne.lat - box.sw.lat| < 0.001 ∧ |b.sw.lng - box.sw.lng| < 0.001 ∧
      |b.ne.lng - box.ne.lng| < 0.001) :
    mergeBoxesY (b :: rest) box = extendB b box.ne :: rest := by
  show (if |b.ne.lat - box.sw.lat| < 0.001 ∧ |b.sw.lng - box.sw.lng| < 0.001 ∧
      |b.ne.lng - box.ne.lng| < 0.001 then extendB b box.ne :: rest
    else b :: mergeBoxesY rest box) = _
  rw [if_pos h]

lemma mergeBoxesY_miss {b : Bound} {rest : List Bound} {box : Bound}
    (h : ¬ (|b.ne.lat - box.sw.lat| < 0.001 ∧ |b.sw.lng - box.sw.lng| < 0.001 ∧
      |b.ne.lng - box.ne.lng| < 0.001)) :
    mergeBoxesY (b :: rest) box = b :: mergeBoxesY rest box := by
  show (if |b.ne.lat - box.sw.lat| < 0.001 ∧ |b.sw.lng - box.sw.lng| < 0.001 ∧
      |b.ne.lng - box.ne.lng| < 0.001 then extendB b box.ne :: rest
    else b :: mergeBoxesY rest box) = _
  rw [if_neg h]

lemma mergeBoxesX_nil (box : Bound) : mergeBoxesX [] box = [box] := rfl

lemma mergeBoxesX_hit {b : Bound} {rest : List Bound} {box : Bound}
    (h : |b.ne.lng - box.sw.lng| < 0.001 ∧ |b.sw.lat - box.sw.lat| < 0.001 ∧
      |b.ne.lat - box.ne.lat| < 0.001) :
    mergeBoxesX (b :: rest) box = extendB b box.ne :: rest := by
  show (if |b.ne.lng - box.sw.lng| < 0.001 ∧ |b.sw.lat - box.sw.lat| < 0.001 ∧
      |b.ne.lat - box.ne.lat| < 0.001 then extendB b box.ne :: rest
    else b :: mergeBoxesX rest box) = _
  rw [if_pos h]

lemma mergeBoxesX_miss {b : Bound} {rest : List Bound} {box : Bound}
    (h : ¬ (|b.ne.lng - box.sw.lng| < 0.001 ∧ |b.sw.lat - box.sw.lat| < 0.001 ∧
      |b.ne.lat - box.ne.lat| < 0.001)) :
    mergeBoxesX (b :: rest) box = b :: mergeBoxesX rest box := by
  show (if |b.ne.lng - box.sw.lng| < 0.001 ∧ |b.sw.lat - box.sw.lat| < 0.001 ∧
      |b.ne.lat - box.ne.lat| < 0.001 then extendB b box.ne :: rest
    else b :: mergeBoxesX rest box) = _
  rw [if_neg h]

lemma rowsPass_succ (r : RouteBoxer) (n : ℕ) (y : ℤ) (acc : List Bound) :
    rowsPass r (n + 1) y acc = rowsPass r n (y + 1) (rowPass r y acc) := rfl

lemma rowsPass_zero (r : RouteBoxer) (y : ℤ) (acc : List Bound) :
    rowsPass r 0 y acc = acc := rfl

lemma colsPass_succ (r : RouteBoxer) (n : ℕ) (x : ℤ) (acc : List Bound) :
    colsPass r (n + 1) x acc = colsPass r n (x + 1) (colPass r x acc) := rfl

lemma colsPass_zero (r : RouteBoxer) (x : ℤ) (acc : List Bound) :
    colsPass r 0 x acc = acc := rfl

/-- Any coordinate difference that is an at-most-two-cell multiple of a cell
width below half the epsilon passes the 0.001 merge comparison. -/
lemma absW_small {w : ℝ} (hw : 0 ≤ w) (h2 : 2 * w < 0.001) {x y : ℝ} (a : ℤ)
    (ha : |a| ≤ 2) (hxy : x - y = (a : ℝ) * w) : |x - y| < 0.001 := by
  rw [hxy, abs_mul]
  have haR : |(a : ℝ)| ≤ 2 := by exact_mod_cast ha
  have h0 : (0 : ℝ) ≤ |(a : ℝ)| := abs_nonneg _
  rw [abs_of_nonneg hw]
  nlinarith

lemma wA2_lt : 2 * wA < 0.001 := by
  have h := wA_lt
  norm_num at h ⊢
  linarith

/-! ### Merge evaluation for route A -/

/-- State after `FindIntersectingCells` on route A. -/
def rA2 : RouteBoxer := { rA1 with grid := gA }

lemma rA2_lngGrid : rA2.lngGrid = listW wA := rA1_lngGrid

lemma rA2_latGrid : rA2.latGrid = listW wA := rA1_latGrid

lemma rA2_gridW : rA2.gridW = 5 := by
  have h : rA2.gridW = rA2.lngGrid.length := rfl
  rw [h, rA2_lngGrid, listW_length]

lemma rA2_gridH : rA2.gridH = 5 := by
  have h : rA2.gridH = rA2.latGrid.length := rfl
  rw [h, rA2_latGrid, listW_length]

lemma rowPassA0 : rowPass rA2 0 [] = [bxW wA 0 0 2 0] := by
  unfold rowPass
  rw [rA2_gridW]
  rw [show (5 : ℕ) = 4 + 1 from rfl, rowScanX_true_none (by decide)]
  rw [cellBoundsW rA2_lngGrid rA2_latGrid wA_pos 0 0 (by decide) (by decide) (by decide)
    (by decide)]
  rw [show ((0 : ℤ) + 1) = 1 by decide]
  rw [show (4 : ℕ) = 3 + 1 from rfl, rowScanX_true_some (by decide)]
  rw [cellBoundsW rA2_lngGrid rA2_latGrid wA_pos 1 0 (by decide) (by decide) (by decide)
    (by decide), bxW_ne,
    extend_bxW wA_pos.le 0 0 0 0 1 0 (by decide) (by decide) (by decide) (by decide)]
  rw [show ((1 : ℤ) + 1) = 2 by decide]
  rw [show (3 : ℕ) = 2 + 1 from rfl, rowScanX_true_some (by decide)]
  rw [cellBoundsW rA2_lngGrid rA2_latGrid wA_pos 2 0 (by decide) (by decide) (by decide)
    (by decide), bxW_ne,
    extend_bxW wA_pos.le 0 0 1 0 2 0 (by decide) (by decide) (by decide) (by decide)]
  rw [show ((2 : ℤ) + 1) = 3 by decide]
  rw [show (2 : ℕ) = 1 + 1 from rfl, rowScanX_false (by decide)]
  rw [mergeBoxesYOpt_some, mergeBoxesY_nil]
  rw [show ((3 : ℤ) + 1) = 4 by decide]
  rw [show (1 : ℕ) = 0 + 1 from rfl, rowScanX_false (by decide)]
  rw [mergeBoxesYOpt_none]
  rw [rowScanX_zero]
  dsimp only
  rw [mergeBoxesYOpt_none]

lemma rowPassA1 : rowPass rA2 1 [bxW wA 0 0 2 0] = [bxW wA 0 0 3 1] := by
  unfold rowPass
  rw [rA2_gridW]
  rw [show (5 : ℕ) = 4 + 1 from rfl, rowScanX_true_none (by decide)]
  rw [cellBoundsW rA2_lngGrid rA2_latGrid wA_pos 0 1 (by decide) (by decide) (by decide)
    (by decide)]
  rw [show ((0 : ℤ) + 1) = 1 by decide]
  rw [show (4 : ℕ) = 3 + 1 from rfl, rowScanX_true_some (by decide)]
  rw [cellBoundsW rA2_lngGrid rA2_latGrid wA_pos 1 1 (by decide) (by decide) (by decide)
    (by decide), bxW_ne,
    extend_bxW wA_pos.le 0 1 0 1 1 1 (by decide) (by decide) (by decide) (by decide)]
  rw [show ((1 : ℤ) + 1) = 2 by decide]
  rw [show (3 : ℕ) = 2 + 1 from rfl, rowScanX_true_some (by decide)]
  rw [cellBoundsW rA2_lngGrid rA2_latGrid wA_pos 2 1 (by decide) (by decide) (by decide)
    (by decide), bxW_ne,
    extend_bxW wA_pos.le 0 1 1 1 2 1 (by decide) (by decide) (by decide) (by decide)]
  rw [show ((2 : ℤ) + 1) = 3 by decide]
  rw [show (2 : ℕ) = 1 + 1 from rfl, rowScanX_true_some (by decide)]
  rw [cellBoundsW rA2_lngGrid rA2_latGrid wA_pos 3 1 (by decide) (by decide) (by decide)
    (by decide), bxW_ne,
    extend_bxW wA_pos.le 0 1 2 1 3 1 (by decide) (by decide) (by decide) (by decide)]
  rw [show ((3 : ℤ) + 1) = 4 by decide]
  rw [show (1 : ℕ) = 0 + 1 from rfl, rowScanX_false (by decide)]
  rw [mergeBoxesYOpt_some,
    mergeBoxesY_hit ⟨absW_small wA_pos.le wA2_lt 0 (by decide)
        (by unfold bxW; dsimp only; push_cast; ring),
      absW_small wA_pos.le wA2_lt 0 (by decide)
        (by unfold bxW; dsimp only; push_cast; ring),
      absW_small wA_pos.le wA2_lt (-1) (by decide)
        (by unfold bxW; dsimp only; push_cast; ring)⟩,
    bxW_ne,
    extend_bxW wA_pos.le 0 0 2 0 3 1 (by decide) (by decide) (by decide) (by decide)]
  rw [rowScanX_zero]
  dsimp only
  rw [mergeBoxesYOpt_none]

lemma rowPassA2 : rowPass rA2 2 [bxW wA 0 0 3 1] = [bxW wA 0 0 3 2] := by
  unfold rowPass
  rw [rA2_gridW]
  rw [show (5 : ℕ) = 4 + 1 from rfl, rowScanX_true_none (by decide)]
  rw [cellBoundsW rA2_lngGrid rA2_latGrid wA_pos 0 2 (by decide) (by decide) (by decide)
    (by decide)]
  rw [show ((0 : ℤ) + 1) = 1 by decide]
  rw [show (4 : ℕ) = 3 + 1 from rfl, rowScanX_true_some (by decide)]
  rw [cellBoundsW rA2_lngGrid rA2_latGrid wA_pos 1 2 (by decide) (by decide) (by decide)
    (by decide), bxW_ne,
    extend_bxW wA_pos.le 0 2 0 2 1 2 (by decide) (by decide) (by decide) (by decide)]
  rw [show ((1 : ℤ) + 1) = 2 by decide]
  rw [show (3 : ℕ) = 2 + 1 from rfl, rowScanX_true_some (by decide)]
  rw [cellBoundsW rA2_lngGrid rA2_latGrid wA_pos 2 2 (by decide) (by decide) (by decide)
    (by decide), bxW_ne,
    extend_bxW wA_pos.le 0 2 1 2 2 2 (by decide) (by decide) (by decide) (by decide)]
  rw [show ((2 : ℤ) + 1) = 3 by decide]
  rw [show (2 : ℕ) = 1 + 1 from rfl, rowScanX_true_some (by decide)]
  rw [cellBoundsW rA2_lngGrid rA2_latGrid wA_pos 3 2 (by decide) (by decide) (by decide)
    (by decide), bxW_ne,
    extend_bxW wA_pos.le 0 2 2 2 3 2 (by decide) (by decide) (by decide) (by decide)]
  rw [show ((3 : ℤ) + 1) = 4 by decide]
  rw [show (1 : ℕ) = 0 + 1 from rfl, rowScanX_false (by decide)]
  rw [mergeBoxesYOpt_some,
    mergeBoxesY_hit ⟨absW_small wA_pos.le wA2_lt 0 (by decide)
        (by unfold bxW; dsimp only; push_cast; ring),
      absW_small wA_pos.le wA2_lt 0 (by decide)
        (by unfold bxW; dsimp only; push_cast; ring),
      absW_small wA_pos.le wA2_lt 0 (by decide)
        (by unfold bxW; dsimp only; push_cast; ring)⟩,
    bxW_ne,
    extend_bxW wA_pos.le 0 0 3 1 3 2 (by decide) (by decide) (by decide) (by decide)]
  rw [rowScanX_zero]
  dsimp only
  rw [mergeBoxesYOpt_none]

lemma rowPassA3 : rowPass rA2 3 [bxW wA 0 0 3 2] = [bxW wA 0 0 3 3] := by
  unfold rowPass
  rw [rA2_gridW]
  rw [show (5 : ℕ) = 4 + 1 from rfl, rowScanX_true_none (by decide)]
  rw [cellBoundsW rA2_lngGrid rA2_latGrid wA_pos 0 3 (by decide) (by decide) (by decide)
    (by decide)]
  rw [show ((0 : ℤ) + 1) = 1 by decide]
  rw [show (4 : ℕ) = 3 + 1 from rfl, rowScanX_true_some (by decide)]
  rw [cellBoundsW rA2_lngGrid rA2_latGrid wA_pos 1 3 (by decide) (by decide) (by decide)
    (by decide), bxW_ne,
    extend_bxW wA_pos.le 0 3 0 3 1 3 (by decide) (by decide) (by decide) (by decide)]
  rw [show ((1 : ℤ) + 1) = 2 by decide]
  rw [show (3 : ℕ) = 2 + 1 from rfl, rowScanX_true_some (by decide)]
  rw [cellBoundsW rA2_lngGrid rA2_latGrid wA_pos 2 3 (by decide) (by decide) (by decide)
    (by decide), bxW_ne,
    extend_bxW wA_pos.le 0 3 1 3 2 3 (by decide) (by decide) (by decide) (by decide)]
  rw [show ((2 : ℤ) + 1) = 3 by decide]
  rw [show (2 : ℕ) = 1 + 1 from rfl, rowScanX_true_some (by decide)]
  rw [cellBoundsW rA2_lngGrid rA2_latGrid wA_pos 3 3 (by decide) (by decide) (by decide)
    (by decide), bxW_ne,
    extend_bxW wA_pos.le 0 3 2 3 3 3 (by decide) (by decide) (by decide) (by decide)]
  rw [show ((3 : ℤ) + 1) = 4 by decide]
  rw [show (1 : ℕ) = 0 + 1 from rfl, rowScanX_false (by decide)]
  rw [mergeBoxesYOpt_some,
    mergeBoxesY_hit ⟨absW_small wA_pos.le wA2_lt 0 (by decide)
        (by unfold bxW; dsimp only; push_cast; ring),
      absW_small wA_pos.le wA2_lt 0 (by decide)
        (by unfold bxW; dsimp only; push_cast; ring),
      absW_small wA_pos.le wA2_lt 0 (by decide)
        (by unfold bxW; dsimp only; push_cast; ring)⟩,
    bxW_ne,
    extend_bxW wA_pos.le 0 0 3 2 3 3 (by decide) (by decide) (by decide) (by decide)]
  rw [rowScanX_zero]
  dsimp only
  rw [mergeBoxesYOpt_none]

lemma rowPassA4 : rowPass rA2 4 [bxW wA 0 0 3 3] = [bxW wA 0 0 3 3] := by
  unfold rowPass
  rw [rA2_gridW]
  rw [show (5 : ℕ) = 4 + 1 from rfl, rowScanX_false (by decide), mergeBoxesYOpt_none]
  rw [show ((0 : ℤ) + 1) = 1 by decide]
  rw [show (4 : ℕ) = 3 + 1 from rfl, rowScanX_false (by decide), mergeBoxesYOpt_none]
  rw [show ((1 : ℤ) + 1) = 2 by decide]
  rw [show (3 : ℕ) = 2 + 1 from rfl, rowScanX_false (by decide), mergeBoxesYOpt_none]
  rw [show ((2 : ℤ) + 1) = 3 by decide]
  rw [show (2 : ℕ) = 1 + 1 from rfl, rowScanX_false (by decide), mergeBoxesYOpt_none]
  rw [show ((3 : ℤ) + 1) = 4 by decide]
  rw [show (1 : ℕ) = 0 + 1 from rfl, rowScanX_false (by decide), mergeBoxesYOpt_none]
  rw [rowScanX_zero]
  dsimp only
  rw [mergeBoxesYOpt_none]

lemma rowsPassA : rowsPass rA2 5 0 [] = [bxW wA 0 0 3 3] := by
  rw [show (5 : ℕ) = 4 + 1 from rfl, rowsPass_succ, rowPassA0,
    show ((0 : ℤ) + 1) = 1 by decide]
  rw [show (4 : ℕ) = 3 + 1 from rfl, rowsPass_succ, rowPassA1,
    show ((1 : ℤ) + 1) = 2 by decide]
  rw [show (3 : ℕ) = 2 + 1 from rfl, rowsPass_succ, rowPassA2,
    show ((2 : ℤ) + 1) = 3 by decide]
  rw [show (2 : ℕ) = 1 + 1 from rfl, rowsPass_succ, rowPassA3,
    show ((3 : ℤ) + 1) = 4 by decide]
  rw [show (1 : ℕ) = 0 + 1 from rfl, rowsPass_succ, rowPassA4]
  rw [rowsPass_zero]

lemma colPassA0 : colPass rA2 0 [] = [bxW wA 0 0 0 3] := by
  unfold colPass
  rw [rA2_gridH]
  rw [show (5 : ℕ) = 4 + 1 from rfl, colScanY_true_none (by decide)]
  rw [cellBoundsW rA2_lngGrid rA2_latGrid wA_pos 0 0 (by decide) (by decide) (by decide)
    (by decide)]
  rw [show ((0 : ℤ) + 1) = 1 by decide]
  rw [show (4 : ℕ) = 3 + 1 from rfl, colScanY_true_some (by decide)]
  rw [cellBoundsW rA2_lngGrid rA2_latGrid wA_pos 0 1 (by decide) (by decide) (by decide)
    (by decide), bxW_ne,
    extend_bxW wA_pos.le 0 0 0 0 0 1 (by decide) (by decide) (by decide) (by decide)]
  rw [show ((1 : ℤ) + 1) = 2 by decide]
  rw [show (3 : ℕ) = 2 + 1 from rfl, colScanY_true_some (by decide)]
  rw [cellBoundsW rA2_lngGrid rA2_latGrid wA_pos 0 2 (by decide) (by decide) (by decide)
    (by decide), bxW_ne,
    extend_bxW wA_pos.le 0 0 0 1 0 2 (by decide) (by decide) (by decide) (by decide)]
  rw [show ((2 : ℤ) + 1) = 3 by decide]
  rw [show (2 : ℕ) = 1 + 1 from rfl, colScanY_true_some (by decide)]
  rw [cellBoundsW rA2_lngGrid rA2_latGrid wA_pos 0 3 (by decide) (by decide) (by decide)
    (by decide), bxW_ne,
    extend_bxW wA_pos.le 0 0 0 2 0 3 (by decide) (by decide) (by decide) (by decide)]
  rw [show ((3 : ℤ) + 1) = 4 by decide]
  rw [show (1 : ℕ) = 0 + 1 from rfl, colScanY_false (by decide)]
  rw [mergeBoxesXOpt_some, mergeBoxesX_nil]
  rw [colScanY_zero]
  dsimp only
  rw [mergeBoxesXOpt_none]

lemma colPassA1 : colPass rA2 1 [bxW wA 0 0 0 3] = [bxW wA 0 0 1 3] := by
  unfold colPass
  rw [rA2_gridH]
  rw [show (5 : ℕ) = 4 + 1 from rfl, colScanY_true_none (by decide)]
  rw [cellBoundsW rA2_lngGrid rA2_latGrid wA_pos 1 0 (by decide) (by decide) (by decide)
    (by decide)]
  rw [show ((0 : ℤ) + 1) = 1 by decide]
  rw [show (4 : ℕ) = 3 + 1 from rfl, colScanY_true_some (by decide)]
  rw [cellBoundsW rA2_lngGrid rA2_latGrid wA_pos 1 1 (by decide) (by decide) (by decide)
    (by decide), bxW_ne,
    extend_bxW wA_pos.le 1 0 1 0 1 1 (by decide) (by decide) (by decide) (by decide)]
  rw [show ((1 : ℤ) + 1) = 2 by decide]
  rw [show (3 : ℕ) = 2 + 1 from rfl, colScanY_true_some (by decide)]
  rw [cellBoundsW rA2_lngGrid rA2_latGrid wA_pos 1 2 (by decide) (by decide) (by decide)
    (by decide), bxW_ne,
    extend_bxW wA_pos.le 1 0 1 1 1 2 (by decide) (by decide) (by decide) (by decide)]
  rw [show ((2 : ℤ) + 1) = 3 by decide]
  rw [show (2 : ℕ) = 1 + 1 from rfl, colScanY_true_some (by decide)]
  rw [cellBoundsW rA2_lngGrid rA2_latGrid wA_pos 1 3 (by decide) (by decide) (by decide)
    (by decide), bxW_ne,
    extend_bxW wA_pos.le 1 0 1 2 1 3 (by decide) (by decide) (by decide) (by decide)]
  rw [show ((3 : ℤ) + 1) = 4 by decide]
  rw [show (1 : ℕ) = 0 + 1 from rfl, colScanY_false (by decide)]
  rw [mergeBoxesXOpt_some,
    mergeBoxesX_hit ⟨absW_small wA_pos.le wA2_lt 0 (by decide)
        (by unfold bxW; dsimp only; push_cast; ring),
      absW_small wA_pos.le wA2_lt 0 (by decide)
        (by unfold bxW; dsimp only; push_cast; ring),
      absW_small wA_pos.le wA2_lt 0 (by decide)
        (by unfold bxW; dsimp only; push_cast; ring)⟩,
    bxW_ne,
    extend_bxW wA_pos.le 0 0 0 3 1 3 (by decide) (by decide) (by decide) (by decide)]
  rw [colScanY_zero]
  dsimp only
  rw [mergeBoxesXOpt_none]

lemma colPassA2 : colPass rA2 2 [bxW wA 0 0 1 3] = [bxW wA 0 0 2 3] := by
  unfold colPass
  rw [rA2_gridH]
  rw [show (5 : ℕ) = 4 + 1 from rfl, colScanY_true_none (by decide)]
  rw [cellBoundsW rA2_lngGrid rA2_latGrid wA_pos 2 0 (by decide) (by decide) (by decide)
    (by decide)]
  rw [show ((0 : ℤ) + 1) = 1 by decide]
  rw [show (4 : ℕ) = 3 + 1 from rfl, colScanY_true_some (by decide)]
  rw [cellBoundsW rA2_lngGrid rA2_latGrid wA_pos 2 1 (by decide) (by decide) (by decide)
    (by decide), bxW_ne,
    extend_bxW wA_pos.le 2 0 2 0 2 1 (by decide) (by decide) (by decide) (by decide)]
  rw [show ((1 : ℤ) + 1) = 2 by decide]
  rw [show (3 : ℕ) = 2 + 1 from rfl, colScanY_true_some (by decide)]
  rw [cellBoundsW rA2_lngGrid rA2_latGrid wA_pos 2 2 (by decide) (by decide) (by decide)
    (by decide), bxW_ne,
    extend_bxW wA_pos.le 2 0 2 1 2 2 (by decide) (by decide) (by decide) (by decide)]
  rw [show ((2 : ℤ) + 1) = 3 by decide]
  rw [show (2 : ℕ) = 1 + 1 from rfl, colScanY_true_some (by decide)]
  rw [cellBoundsW rA2_lngGrid rA2_latGrid wA_pos 2 3 (by decide) (by decide) (by decide)
    (by decide), bxW_ne,
    extend_bxW wA_pos.le 2 0 2 2 2 3 (by decide) (by decide) (by decide) (by decide)]
  rw [show ((3 : ℤ) + 1) = 4 by decide]
  rw [show (1 : ℕ) = 0 + 1 from rfl, colScanY_false (by decide)]
  rw [mergeBoxesXOpt_some,
    mergeBoxesX_hit ⟨absW_small wA_pos.le wA2_lt 0 (by decide)
        (by unfold bxW; dsimp only; push_cast; ring),
      absW_small wA_pos.le wA2_lt 0 (by decide)
        (by unfold bxW; dsimp only; push_cast; ring),
      absW_small wA_pos.le wA2_lt 0 (by decide)
        (by unfold bxW; dsimp only; push_cast; ring)⟩,
    bxW_ne,
    extend_bxW wA_pos.le 0 0 1 3 2 3 (by decide) (by decide) (by decide) (by decide)]
  rw [colScanY_zero]
  dsimp only
  rw [mergeBoxesXOpt_none]

lemma colPassA3 : colPass rA2 3 [bxW wA 0 0 2 3] = [bxW wA 0 0 3 3] := by
  unfold colPass
  rw [rA2_gridH]
  rw [show (5 : ℕ) = 4 + 1 from rfl, colScanY_false (by decide), mergeBoxesXOpt_none]
  rw [show ((0 : ℤ) + 1) = 1 by decide]
  rw [show (4 : ℕ) = 3 + 1 from rfl, colScanY_true_none (by decide)]
  rw [cellBoundsW rA2_lngGrid rA2_latGrid wA_pos 3 1 (by decide) (by decide) (by decide)
    (by decide)]
  rw [show ((1 : ℤ) + 1) = 2 by decide]
  rw [show (3 : ℕ) = 2 + 1 from rfl, colScanY_true_some (by decide)]
  rw [cellBoundsW rA2_lngGrid rA2_latGrid wA_pos 3 2 (by decide) (by decide) (by decide)
    (by decide), bxW_ne,
    extend_bxW wA_pos.le 3 1 3 1 3 2 (by decide) (by decide) (by decide) (by decide)]
  rw [show ((2 : ℤ) + 1) = 3 by decide]
  rw [show (2 : ℕ) = 1 + 1 from rfl, colScanY_true_some (by decide)]
  rw [cellBoundsW rA2_lngGrid rA2_latGrid wA_pos 3 3 (by decide) (by decide) (by decide)
    (by decide), bxW_ne,
    extend_bxW wA_pos.le 3 1 3 2 3 3 (by decide) (by decide) (by decide) (by decide)]
  rw [show ((3 : ℤ) + 1) = 4 by decide]
  rw [show (1 : ℕ) = 0 + 1 from rfl, colScanY_false (by decide)]
  rw [mergeBoxesXOpt_some,
    mergeBoxesX_hit ⟨absW_small wA_pos.le wA2_lt 0 (by decide)
        (by unfold bxW; dsimp only; push_cast; ring),
      absW_small wA_pos.le wA2_lt (-1) (by decide)
        (by unfold bxW; dsimp only; push_cast; ring),
      absW_small wA_pos.le wA2_lt 0 (by decide)
        (by unfold bxW; dsimp only; push_cast; ring)⟩,
    bxW_ne,
    extend_bxW wA_pos.le 0 0 2 3 3 3 (by decide) (by decide) (by decide) (by decide)]
  rw [colScanY_zero]
  dsimp only
  rw [mergeBoxesXOpt_none]

lemma colPassA4 : colPass rA2 4 [bxW wA 0 0 3 3] = [bxW wA 0 0 3 3] := by
  unfold colPass
  rw [rA2_gridH]
  rw [show (5 : ℕ) = 4 + 1 from rfl, colScanY_false (by decide), mergeBoxesXOpt_none]
  rw [show ((0 : ℤ) + 1) = 1 by decide]
  rw [show (4 : ℕ) = 3 + 1 from rfl, colScanY_false (by decide), mergeBoxesXOpt_none]
  rw [show ((1 : ℤ) + 1) = 2 by decide]
  rw [show (3 : ℕ) = 2 + 1 from rfl, colScanY_false (by decide), mergeBoxesXOpt_none]
  rw [show ((2 : ℤ) + 1) = 3 by decide]
  rw [show (2 : ℕ) = 1 + 1 from rfl, colScanY_false (by decide), mergeBoxesXOpt_none]
  rw [show ((3 : ℤ) + 1) = 4 by decide]
  rw [show (1 : ℕ) = 0 + 1 from rfl, colScanY_false (by decide), mergeBoxesXOpt_none]
  rw [colScanY_zero]
  dsimp only
  rw [mergeBoxesXOpt_none]

lemma colsPassA : colsPass rA2 5 0 [] = [bxW wA 0 0 3 3] := by
  rw [show (5 : ℕ) = 4 + 1 from rfl, colsPass_succ, colPassA0,
    show ((0 : ℤ) + 1) = 1 by decide]
  rw [show (4 : ℕ) = 3 + 1 from rfl, colsPass_succ, colPassA1,
    show ((1 : ℤ) + 1) = 2 by decide]
  rw [show (3 : ℕ) = 2 + 1 from rfl, colsPass_succ, colPassA2,
    show ((2 : ℤ) + 1) = 3 by decide]
  rw [show (2 : ℕ) = 1 + 1 from rfl, colsPass_succ, colPassA3,
    show ((3 : ℤ) + 1) = 4 by decide]
  rw [show (1 : ℕ) = 0 + 1 from rfl, colsPass_succ, colPassA4]
  rw [colsPass_zero]

lemma rowsPassA' : rowsPass rA2 rA2.gridH 0 rA2.boxesY = [bxW wA 0 0 3 3] := by
  rw [rA2_gridH, show rA2.boxesY = [] from rfl, rowsPassA]

lemma colsPassA' : colsPass rA2 rA2.gridW 0 rA2.boxesX = [bxW wA 0 0 3 3] := by
  rw [rA2_gridW, show rA2.boxesX = [] from rfl, colsPassA]

lemma mergeA : mergeIntersectingCells rA2 =
    { rA2 with boxesY := [bxW wA 0 0 3 3], boxesX := [bxW wA 0 0 3 3] } := by
  unfold mergeIntersectingCells
  rw [rowsPassA', colsPassA']

/-- Full pipeline result on route A: a single box spanning the whole 4x4 block
of cells from (0,0) to (3,3). -/
lemma BoxesA : Boxes 4 (NewRouteBoxer 50 routeA) =
    some ([bxW wA 0 0 3 3],
      { rA2 with boxesY := [bxW wA 0 0 3 3], boxesX := [bxW wA 0 0 3 3] }) := by
  unfold Boxes
  rw [show buildGrid 4 (NewRouteBoxer 50 routeA) = rA1 from rfl]
  dsimp only
  rw [findA]
  dsimp only
  rw [show mergeIntersectingCells { rA1 with grid := gA } = mergeIntersectingCells rA2
    from rfl]
  rw [mergeA]
  dsimp only
  rw [if_pos (le_refl _)]

/-- A coordinate difference that is exactly zero always passes the epsilon
comparison. -/
lemma absW_zero {x y : ℝ} (hxy : x - y = 0) : |x - y| < 0.001 := by
  rw [hxy]
  norm_num

/-- A coordinate difference that is a nonzero cell multiple of a cell width
above the epsilon fails the 0.001 merge comparison. -/
lemma absW_large {w : ℝ} (hgt : 0.001 < w) {x y : ℝ} (a : ℤ) (ha : 1 ≤ |a|)
    (hxy : x - y = (a : ℝ) * w) : ¬ |x - y| < 0.001 := by
  rw [hxy, abs_mul, not_lt]
  have haR : (1 : ℝ) ≤ |(a : ℝ)| := by exact_mod_cast ha
  have hw0 : (0 : ℝ) ≤ w := by linarith
  rw [abs_of_nonneg hw0]
  nlinarith

lemma wB001 : 0.001 < wB := by
  have h := wB_gt
  norm_num at h ⊢
  linarith

/-- C1: REFUTED.  The claim says the returned rectangle set covers exactly the
true cells of the coverage grid — in particular that no unmarked cell lies
inside any output rectangle.  On route A (an L-shaped 3-point route whose
cells are one `wA < 0.001`-degree step wide) the 0.001-degree merge epsilon
spuriously matches boxes that are a whole cell apart, and `Boxes` returns the
single rectangle `bxW wA 0 0 3 3` even though cell (3,0) is unmarked; that
cell's full rectangle lies inside the returned rectangle. -/
theorem C1_output_covers_unmarked_cell :
    Boxes 4 (NewRouteBoxer 50 routeA) =
      some ([bxW wA 0 0 3 3],
        { rA2 with boxesY := [bxW wA 0 0 3 3], boxesX := [bxW wA 0 0 3 3] }) ∧
    rA2.grid 3 0 = false ∧
    getCellBounds rA2 (3, 0) = bxW wA 3 0 3 0 ∧
    ((bxW wA 0 0 3 3).sw.lng ≤ (bxW wA 3 0 3 0).sw.lng ∧
      (bxW wA 3 0 3 0).ne.lng ≤ (bxW wA 0 0 3 3).ne.lng ∧
      (bxW wA 0 0 3 3).sw.lat ≤ (bxW wA 3 0 3 0).sw.lat ∧
      (bxW wA 3 0 3 0).ne.lat ≤ (bxW wA 0 0 3 3).ne.lat) := by
  refine ⟨BoxesA, by decide, ?_, ?_, ?_, ?_, ?_⟩
  · exact cellBoundsW rA2_lngGrid rA2_latGrid wA_pos 3 0 (by decide) (by decide)
      (by decide) (by decide)
  all_goals unfold bxW
  all_goals dsimp only
  all_goals push_cast
  all_goals nlinarith [wA_pos]

/-! ### Merge evaluation for route B -/

/-- State after `FindIntersectingCells` on route B. -/
def rB2 : RouteBoxer := { rB1 with grid := gB }

lemma rB2_lngGrid : rB2.lngGrid = listW wB := rB1_lngGrid

lemma rB2_latGrid : rB2.latGrid = listW wB := rB1_latGrid

lemma rB2_gridW : rB2.gridW = 5 := by
  have h : rB2.gridW = rB2.lngGrid.length := rfl
  rw [h, rB2_lngGrid, listW_length]

lemma rB2_gridH : rB2.gridH = 5 := by
  have h : rB2.gridH = rB2.latGrid.length := rfl
  rw [h, rB2_latGrid, listW_length]

lemma rowPassB0 : rowPass rB2 0 [] = [bxW wB 0 0 3 0] := by
  unfold rowPass
  rw [rB2_gridW]
  rw [show (5 : ℕ) = 4 + 1 from rfl, rowScanX_true_none (by decide)]
  rw [cellBoundsW rB2_lngGrid rB2_latGrid wB_pos 0 0 (by decide) (by decide) (by decide)
    (by decide)]
  rw [show ((0 : ℤ) + 1) = 1 by decide]
  rw [show (4 : ℕ) = 3 + 1 from rfl, rowScanX_true_some (by decide)]
  rw [cellBoundsW rB2_lngGrid rB2_latGrid wB_pos 1 0 (by decide) (by decide) (by decide)
    (by decide), bxW_ne,
    extend_bxW wB_pos.le 0 0 0 0 1 0 (by decide) (by decide) (by decide) (by decide)]
  rw [show ((1 : ℤ) + 1) = 2 by decide]
  rw [show (3 : ℕ) = 2 + 1 from rfl, rowScanX_true_some (by decide)]
  rw [cellBoundsW rB2_lngGrid rB2_latGrid wB_pos 2 0 (by decide) (by decide) (by decide)
    (by decide), bxW_ne,
    extend_bxW wB_pos.le 0 0 1 0 2 0 (by decide) (by decide) (by decide) (by decide)]
  rw [show ((2 : ℤ) + 1) = 3 by decide]
  rw [show (2 : ℕ) = 1 + 1 from rfl, rowScanX_true_some (by decide)]
  rw [cellBoundsW rB2_lngGrid rB2_latGrid wB_pos 3 0 (by decide) (by decide) (by decide)
    (by decide), bxW_ne,
    extend_bxW wB_pos.le 0 0 2 0 3 0 (by decide) (by decide) (by decide) (by decide)]
  rw [show ((3 : ℤ) + 1) = 4 by decide]
  rw [show (1 : ℕ) = 0 + 1 from rfl, rowScanX_false (by decide)]
  rw [mergeBoxesYOpt_some, mergeBoxesY_nil]
  rw [rowScanX_zero]
  dsimp only
  rw [mergeBoxesYOpt_none]

lemma rowPassB1 : rowPass rB2 1 [bxW wB 0 0 3 0] = [bxW wB 0 0 3 1] := by
  unfold rowPass
  rw [rB2_gridW]
  rw [show (5 : ℕ) = 4 + 1 from rfl, rowScanX_true_none (by decide)]
  rw [cellBoundsW rB2_lngGrid rB2_latGrid wB_pos 0 1 (by decide) (by decide) (by decide)
    (by decide)]
  rw [show ((0 : ℤ) + 1) = 1 by decide]
  rw [show (4 : ℕ) = 3 + 1 from rfl, rowScanX_true_some (by decide)]
  rw [cellBoundsW rB2_lngGrid rB2_latGrid wB_pos 1 1 (by decide) (by decide) (by decide)
    (by decide), bxW_ne,
    extend_bxW wB_pos.le 0 1 0 1 1 1 (by decide) (by decide) (by decide) (by decide)]
  rw [show ((1 : ℤ) + 1) = 2 by decide]
  rw [show (3 : ℕ) = 2 + 1 from rfl, rowScanX_true_some (by decide)]
  rw [cellBoundsW rB2_lngGrid rB2_latGrid wB_pos 2 1 (by decide) (by decide) (by decide)
    (by decide), bxW_ne,
    extend_bxW wB_pos.le 0 1 1 1 2 1 (by decide) (by decide) (by decide) (by decide)]
  rw [show ((2 : ℤ) + 1) = 3 by decide]
  rw [show (2 : ℕ) = 1 + 1 from rfl, rowScanX_true_some (by decide)]
  rw [cellBoundsW rB2_lngGrid rB2_latGrid wB_pos 3 1 (by decide) (by decide) (by decide)
    (by decide), bxW_ne,
    extend_bxW wB_pos.le 0 1 2 1 3 1 (by decide) (by decide) (by decide) (by decide)]
  rw [show ((3 : ℤ) + 1) = 4 by decide]
  rw [show (1 : ℕ) = 0 + 1 from rfl, rowScanX_false (by decide)]
  rw [mergeBoxesYOpt_some,
    mergeBoxesY_hit ⟨absW_zero (by unfold bxW; dsimp only; push_cast; ring),
      absW_zero (by unfold bxW; dsimp only; push_cast; ring),
      absW_zero (by unfold bxW; dsimp only; push_cast; ring)⟩,
    bxW_ne,
    extend_bxW wB_pos.le 0 0 3 0 3 1 (by decide) (by decide) (by decide) (by decide)]
  rw [rowScanX_zero]
  dsimp only
  rw [mergeBoxesYOpt_none]

lemma rowPassB2 : rowPass rB2 2 [bxW wB 0 0 3 1] = [bxW wB 0 0 3 2] := by
  unfold rowPass
  rw [rB2_gridW]
  rw [show (5 : ℕ) = 4 + 1 from rfl, rowScanX_true_none (by decide)]
  rw [cellBoundsW rB2_lngGrid rB2_latGrid wB_pos 0 2 (by decide) (by decide) (by decide)
    (by decide)]
  rw [show ((0 : ℤ) + 1) = 1 by decide]
  rw [show (4 : ℕ) = 3 + 1 from rfl, rowScanX_true_some (by decide)]
  rw [cellBoundsW rB2_lngGrid rB2_latGrid wB_pos 1 2 (by decide) (by decide) (by decide)
    (by decide), bxW_ne,
    extend_bxW wB_pos.le 0 2 0 2 1 2 (by decide) (by decide) (by decide) (by decide)]
  rw [show ((1 : ℤ) + 1) = 2 by decide]
  rw [show (3 : ℕ) = 2 + 1 from rfl, rowScanX_true_some (by decide)]
  rw [cellBoundsW rB2_lngGrid rB2_latGrid wB_pos 2 2 (by decide) (by decide) (by decide)
    (by decide), bxW_ne,
    extend_bxW wB_pos.le 0 2 1 2 2 2 (by decide) (by decide) (by decide) (by decide)]
  rw [show ((2 : ℤ) + 1) = 3 by decide]
  rw [show (2 : ℕ) = 1 + 1 from rfl, rowScanX_true_some (by decide)]
  rw [cellBoundsW rB2_lngGrid rB2_latGrid wB_pos 3 2 (by decide) (by decide) (by decide)
    (by decide), bxW_ne,
    extend_bxW wB_pos.le 0 2 2 2 3 2 (by decide) (by decide) (by decide) (by decide)]
  rw [show ((3 : ℤ) + 1) = 4 by decide]
  rw [show (1 : ℕ) = 0 + 1 from rfl, rowScanX_false (by decide)]
  rw [mergeBoxesYOpt_some,
    mergeBoxesY_hit ⟨absW_zero (by unfold bxW; dsimp only; push_cast; ring),
      absW_zero (by unfold bxW; dsimp only; push_cast; ring),
      absW_zero (by unfold bxW; dsimp only; push_cast; ring)⟩,
    bxW_ne,
    extend_bxW wB_pos.le 0 0 3 1 3 2 (by decide) (by decide) (by decide) (by decide)]
  rw [rowScanX_zero]
  dsimp only
  rw [mergeBoxesYOpt_none]

lemma rowPassB3 : rowPass rB2 3 [bxW wB 0 0 3 2] =
    [bxW wB 0 0 3 2, bxW wB 1 3 3 3] := by
  unfold rowPass
  rw [rB2_gridW]
  rw [show (5 : ℕ) = 4 + 1 from rfl, rowScanX_false (by decide), mergeBoxesYOpt_none]
  rw [show ((0 : ℤ) + 1) = 1 by decide]
  rw [show (4 : ℕ) = 3 + 1 from rfl, rowScanX_true_none (by decide)]
  rw [cellBoundsW rB2_lngGrid rB2_latGrid wB_pos 1 3 (by decide) (by decide) (by decide)
    (by decide)]
  rw [show ((1 : ℤ) + 1) = 2 by decide]
  rw [show (3 : ℕ) = 2 + 1 from rfl, rowScanX_true_some (by decide)]
  rw [cellBoundsW rB2_lngGrid rB2_latGrid wB_pos 2 3 (by decide) (by decide) (by decide)
    (by decide), bxW_ne,
    extend_bxW wB_pos.le 1 3 1 3 2 3 (by decide) (by decide) (by decide) (by decide)]
  rw [show ((2 : ℤ) + 1) = 3 by decide]
  rw [show (2 : ℕ) = 1 + 1 from rfl, rowScanX_true_some (by decide)]
  rw [cellBoundsW rB2_lngGrid rB2_latGrid wB_pos 3 3 (by decide) (by decide) (by decide)
    (by decide), bxW_ne,
    extend_bxW wB_pos.le 1 3 2 3 3 3 (by decide) (by decide) (by decide) (by decide)]
  rw [show ((3 : ℤ) + 1) = 4 by decide]
  rw [show (1 : ℕ) = 0 + 1 from rfl, rowScanX_false (by decide)]
  rw [mergeBoxesYOpt_some,
    mergeBoxesY_miss (fun hcon => absW_large wB001 (-1) (by decide)
      (by unfold bxW; dsimp only; push_cast; ring) hcon.2.1),
    mergeBoxesY_nil]
  rw [rowScanX_zero]
  dsimp only
  rw [mergeBoxesYOpt_none]

lemma rowPassB4 : rowPass rB2 4 [bxW wB 0 0 3 2, bxW wB 1 3 3 3] =
    [bxW wB 0 0 3 2, bxW wB 1 3 3 3] := by
  unfold rowPass
  rw [rB2_gridW]
  rw [show (5 : ℕ) = 4 + 1 from rfl, rowScanX_false (by decide), mergeBoxesYOpt_none]
  rw [show ((0 : ℤ) + 1) = 1 by decide]
  rw [show (4 : ℕ) = 3 + 1 from rfl, rowScanX_false (by decide), mergeBoxesYOpt_none]
  rw [show ((1 : ℤ) + 1) = 2 by decide]
  rw [show (3 : ℕ) = 2 + 1 from rfl, rowScanX_false (by decide), mergeBoxesYOpt_none]
  rw [show ((2 : ℤ) + 1) = 3 by decide]
  rw [show (2 : ℕ) = 1 + 1 from rfl, rowScanX_false (by decide), mergeBoxesYOpt_none]
  rw [show ((3 : ℤ) + 1) = 4 by decide]
  rw [show (1 : ℕ) = 0 + 1 from rfl, rowScanX_false (by decide), mergeBoxesYOpt_none]
  rw [rowScanX_zero]
  dsimp only
  rw [mergeBoxesYOpt_none]

lemma rowsPassB : rowsPass rB2 5 0 [] = [bxW wB 0 0 3 2, bxW wB 1 3 3 3] := by
  rw [show (5 : ℕ) = 4 + 1 from rfl, rowsPass_succ, rowPassB0,
    show ((0 : ℤ) + 1) = 1 by decide]
  rw [show (4 : ℕ) = 3 + 1 from rfl, rowsPass_succ, rowPassB1,
    show ((1 : ℤ) + 1) = 2 by decide]
  rw [show (3 : ℕ) = 2 + 1 from rfl, rowsPass_succ, rowPassB2,
    show ((2 : ℤ) + 1) = 3 by decide]
  rw [show (2 : ℕ) = 1 + 1 from rfl, rowsPass_succ, rowPassB3,
    show ((3 : ℤ) + 1) = 4 by decide]
  rw [show (1 : ℕ) = 0 + 1 from rfl, rowsPass_succ, rowPassB4]
  rw [rowsPass_zero]

lemma colPassB0 : colPass rB2 0 [] = [bxW wB 0 0 0 2] := by
  unfold colPass
  rw [rB2_gridH]
  rw [show (5 : ℕ) = 4 + 1 from rfl, colScanY_true_none (by decide)]
  rw [cellBoundsW rB2_lngGrid rB2_latGrid wB_pos 0 0 (by decide) (by decide) (by decide)
    (by decide)]
  rw [show ((0 : ℤ) + 1) = 1 by decide]
  rw [show (4 : ℕ) = 3 + 1 from rfl, colScanY_true_some (by decide)]
  rw [cellBoundsW rB2_lngGrid rB2_latGrid wB_pos 0 1 (by decide) (by decide) (by decide)
    (by decide), bxW_ne,
    extend_bxW wB_pos.le 0 0 0 0 0 1 (by decide) (by decide) (by decide) (by decide)]
  rw [show ((1 : ℤ) + 1) = 2 by decide]
  rw [show (3 : ℕ) = 2 + 1 from rfl, colScanY_true_some (by decide)]
  rw [cellBoundsW rB2_lngGrid rB2_latGrid wB_pos 0 2 (by decide) (by decide) (by decide)
    (by decide), bxW_ne,
    extend_bxW wB_pos.le 0 0 0 1 0 2 (by decide) (by decide) (by decide) (by decide)]
  rw [show ((2 : ℤ) + 1) = 3 by decide]
  rw [show (2 : ℕ) = 1 + 1 from rfl, colScanY_false (by decide)]
  rw [mergeBoxesXOpt_some, mergeBoxesX_nil]
  rw [show ((3 : ℤ) + 1) = 4 by decide]
  rw [show (1 : ℕ) = 0 + 1 from rfl, colScanY_false (by decide), mergeBoxesXOpt_none]
  rw [colScanY_zero]
  dsimp only
  rw [mergeBoxesXOpt_none]

lemma colPassB1 : colPass rB2 1 [bxW wB 0 0 0 2] =
    [bxW wB 0 0 0 2, bxW wB 1 0 1 3] := by
  unfold colPass
  rw [rB2_gridH]
  rw [show (5 : ℕ) = 4 + 1 from rfl, colScanY_true_none (by decide)]
  rw [cellBoundsW rB2_lngGrid rB2_latGrid wB_pos 1 0 (by decide) (by decide) (by decide)
    (by decide)]
  rw [show ((0 : ℤ) + 1) = 1 by decide]
  rw [show (4 : ℕ) = 3 + 1 from rfl, colScanY_true_some (by decide)]
  rw [cellBoundsW rB2_lngGrid rB2_latGrid wB_pos 1 1 (by decide) (by decide) (by decide)
    (by decide), bxW_ne,
    extend_bxW wB_pos.le 1 0 1 0 1 1 (by decide) (by decide) (by decide) (by decide)]
  rw [show ((1 : ℤ) + 1) = 2 by decide]
  rw [show (3 : ℕ) = 2 + 1 from rfl, colScanY_true_some (by decide)]
  rw [cellBoundsW rB2_lngGrid rB2_latGrid wB_pos 1 2 (by decide) (by decide) (by decide)
    (by decide), bxW_ne,
    extend_bxW wB_pos.le 1 0 1 1 1 2 (by decide) (by decide) (by decide) (by decide)]
  rw [show ((2 : ℤ) + 1) = 3 by decide]
  rw [show (2 : ℕ) = 1 + 1 from rfl, colScanY_true_some (by decide)]
  rw [cellBoundsW rB2_lngGrid rB2_latGrid wB_pos 1 3 (by decide) (by decide) (by decide)
    (by decide), bxW_ne,
    extend_bxW wB_pos.le 1 0 1 2 1 3 (by decide) (by decide) (by decide) (by decide)]
  rw [show ((3 : ℤ) + 1) = 4 by decide]
  rw [show (1 : ℕ) = 0 + 1 from rfl, colScanY_false (by decide)]
  rw [mergeBoxesXOpt_some,
    mergeBoxesX_miss (fun hcon => absW_large wB001 (-1) (by decide)
      (by unfold bxW; dsimp only; push_cast; ring) hcon.2.2),
    mergeBoxesX_nil]
  rw [colScanY_zero]
  dsimp only
  rw [mergeBoxesXOpt_none]

lemma colPassB2 : colPass rB2 2 [bxW wB 0 0 0 2, bxW wB 1 0 1 3] =
    [bxW wB 0 0 0 2, bxW wB 1 0 2 3] := by
  unfold colPass
  rw [rB2_gridH]
  rw [show (5 : ℕ) = 4 + 1 from rfl, colScanY_true_none (by decide)]
  rw [cellBoundsW rB2_lngGrid rB2_latGrid wB_pos 2 0 (by decide) (by decide) (by decide)
    (by decide)]
  rw [show ((0 : ℤ) + 1) = 1 by decide]
  rw [show (4 : ℕ) = 3 + 1 from rfl, colScanY_true_some (by decide)]
  rw [cellBoundsW rB2_lngGrid rB2_latGrid wB_pos 2 1 (by decide) (by decide) (by decide)
    (by decide), bxW_ne,
    extend_bxW wB_pos.le 2 0 2 0 2 1 (by decide) (by decide) (by decide) (by decide)]
  rw [show ((1 : ℤ) + 1) = 2 by decide]
  rw [show (3 : ℕ) = 2 + 1 from rfl, colScanY_true_some (by decide)]
  rw [cellBoundsW rB2_lngGrid rB2_latGrid wB_pos 2 2 (by decide) (by decide) (by decide)
    (by decide), bxW_ne,
    extend_bxW wB_pos.le 2 0 2 1 2 2 (by decide) (by decide) (by decide) (by decide)]
  rw [show ((2 : ℤ) + 1) = 3 by decide]
  rw [show (2 : ℕ) = 1 + 1 from rfl, colScanY_true_some (by decide)]
  rw [cellBoundsW rB2_lngGrid rB2_latGrid wB_pos 2 3 (by decide) (by decide) (by decide)
    (by decide), bxW_ne,
    extend_bxW wB_pos.le 2 0 2 2 2 3 (by decide) (by decide) (by decide) (by decide)]
  rw [show ((3 : ℤ) + 1) = 4 by decide]
  rw [show (1 : ℕ) = 0 + 1 from rfl, colScanY_false (by decide)]
  rw [mergeBoxesXOpt_some,
    mergeBoxesX_miss (fun hcon => absW_large wB001 (-1) (by decide)
      (by unfold bxW; dsimp only; push_cast; ring) hcon.1),
    mergeBoxesX_hit ⟨absW_zero (by unfold bxW; dsimp only; push_cast; ring),
      absW_zero (by unfold bxW; dsimp only; push_cast; ring),
      absW_zero (by unfold bxW; dsimp only; push_cast; ring)⟩,
    bxW_ne,
    extend_bxW wB_pos.le 1 0 1 3 2 3 (by decide) (by decide) (by decide) (by decide)]
  rw [colScanY_zero]
  dsimp only
  rw [mergeBoxesXOpt_none]

lemma colPassB3 : colPass rB2 3 [bxW wB 0 0 0 2, bxW wB 1 0 2 3] =
    [bxW wB 0 0 0 2, bxW wB 1 0 3 3] := by
  unfold colPass
  rw [rB2_gridH]
  rw [show (5 : ℕ) = 4 + 1 from rfl, colScanY_true_none (by decide)]
  rw [cellBoundsW rB2_lngGrid rB2_latGrid wB_pos 3 0 (by decide) (by decide) (by decide)
    (by decide)]
  rw [show ((0 : ℤ) + 1) = 1 by decide]
  rw [show (4 : ℕ) = 3 + 1 from rfl, colScanY_true_some (by decide)]
  rw [cellBoundsW rB2_lngGrid rB2_latGrid wB_pos 3 1 (by decide) (by decide) (by decide)
    (by decide), bxW_ne,
    extend_bxW wB_pos.le 3 0 3 0 3 1 (by decide) (by decide) (by decide) (by decide)]
  rw [show ((1 : ℤ) + 1) = 2 by decide]
  rw [show (3 : ℕ) = 2 + 1 from rfl, colScanY_true_some (by decide)]
  rw [cellBoundsW rB2_lngGrid rB2_latGrid wB_pos 3 2 (by decide) (by decide) (by decide)
    (by decide), bxW_ne,
    extend_bxW wB_pos.le 3 0 3 1 3 2 (by decide) (by decide) (by decide) (by decide)]
  rw [show ((2 : ℤ) + 1) = 3 by decide]
  rw [show (2 : ℕ) = 1 + 1 from rfl, colScanY_true_some (by decide)]
  rw [cellBoundsW rB2_lngGrid rB2_latGrid wB_pos 3 3 (by decide) (by decide) (by decide)
    (by decide), bxW_ne,
    extend_bxW wB_pos.le 3 0 3 2 3 3 (by decide) (by decide) (by decide) (by decide)]
  rw [show ((3 : ℤ) + 1) = 4 by decide]
  rw [show (1 : ℕ) = 0 + 1 from rfl, colScanY_false (by decide)]
  rw [mergeBoxesXOpt_some,
    mergeBoxesX_miss (fun hcon => absW_large wB001 (-2) (by decide)
      (by unfold bxW; dsimp only; push_cast; ring) hcon.1),
    mergeBoxesX_hit ⟨absW_zero (by unfold bxW; dsimp only; push_cast; ring),
      absW_zero (by unfold bxW; dsimp only; push_cast; ring),
      absW_zero (by unfold bxW; dsimp only; push_cast; ring)⟩,
    bxW_ne,
    extend_bxW wB_pos.le 1 0 2 3 3 3 (by decide) (by decide) (by decide) (by decide)]
  rw [colScanY_zero]
  dsimp only
  rw [mergeBoxesXOpt_none]

lemma colPassB4 : colPass rB2 4 [bxW wB 0 0 0 2, bxW wB 1 0 3 3] =
    [bxW wB 0 0 0 2, bxW wB 1 0 3 3] := by
  unfold colPass
  rw [rB2_gridH]
  rw [show (5 : ℕ) = 4 + 1 from rfl, colScanY_false (by decide), mergeBoxesXOpt_none]
  rw [show ((0 : ℤ) + 1) = 1 by decide]
  rw [show (4 : ℕ) = 3 + 1 from rfl, colScanY_false (by decide), mergeBoxesXOpt_none]
  rw [show ((1 : ℤ) + 1) = 2 by decide]
  rw [show (3 : ℕ) = 2 + 1 from rfl, colScanY_false (by decide), mergeBoxesXOpt_none]
  rw [show ((2 : ℤ) + 1) = 3 by decide]
  rw [show (2 : ℕ) = 1 + 1 from rfl, colScanY_false (by decide), mergeBoxesXOpt_none]
  rw [show ((3 : ℤ) + 1) = 4 by decide]
  rw [show (1 : ℕ) = 0 + 1 from rfl, colScanY_false (by decide), mergeBoxesXOpt_none]
  rw [colScanY_zero]
  dsimp only
  rw [mergeBoxesXOpt_none]

lemma colsPassB : colsPass rB2 5 0 [] = [bxW wB 0 0 0 2, bxW wB 1 0 3 3] := by
  rw [show (5 : ℕ) = 4 + 1 from rfl, colsPass_succ, colPassB0,
    show ((0 : ℤ) + 1) = 1 by decide]
  rw [show (4 : ℕ) = 3 + 1 from rfl, colsPass_succ, colPassB1,
    show ((1 : ℤ) + 1) = 2 by decide]
  rw [show (3 : ℕ) = 2 + 1 from rfl, colsPass_succ, colPassB2,
    show ((2 : ℤ) + 1) = 3 by decide]
  rw [show (2 : ℕ) = 1 + 1 from rfl, colsPass_succ, colPassB3,
    show ((3 : ℤ) + 1) = 4 by decide]
  rw [show (1 : ℕ) = 0 + 1 from rfl, colsPass_succ, colPassB4]
  rw [colsPass_zero]

lemma rowsPassB' : rowsPass rB2 rB2.gridH 0 rB2.boxesY =
    [bxW wB 0 0 3 2, bxW wB 1 3 3 3] := by
  rw [rB2_gridH, show rB2.boxesY = [] from rfl, rowsPassB]

lemma colsPassB' : colsPass rB2 rB2.gridW 0 rB2.boxesX =
    [bxW wB 0 0 0 2, bxW wB 1 0 3 3] := by
  rw [rB2_gridW, show rB2.boxesX = [] from rfl, colsPassB]

/-- Post-merge state on route B: both accumulators hold two boxes, and the two
box lists differ. -/
def rB3 : RouteBoxer :=
  { rB2 with boxesY := [bxW wB 0 0 3 2, bxW wB 1 3 3 3],
             boxesX := [bxW wB 0 0 0 2, bxW wB 1 0 3 3] }

lemma mergeB : mergeIntersectingCells rB2 = rB3 := by
  unfold mergeIntersectingCells rB3
  rw [rowsPassB', colsPassB']

/-- Full pipeline on route B: a two-box tie, resolved in favour of the
column-first accumulator `boxesX`. -/
lemma BoxesB : Boxes 4 (NewRouteBoxer 1000 routeB) =
    some ([bxW wB 0 0 0 2, bxW wB 1 0 3 3], rB3) := by
  unfold Boxes
  rw [show buildGrid 4 (NewRouteBoxer 1000 routeB) = rB1 from rfl]
  dsimp only
  rw [findB]
  dsimp only
  rw [show mergeIntersectingCells { rB1 with grid := gB } = mergeIntersectingCells rB2
    from rfl]
  rw [mergeB]
  rw [if_pos (by decide : rB3.boxesX.length ≤ rB3.boxesY.length)]
  rw [show rB3.boxesX = [bxW wB 0 0 0 2, bxW wB 1 0 3 3] from rfl]

/-- On route B the two accumulators tie at two boxes each yet hold different
boxes, and `Boxes` returns the column-first accumulator `boxesX`, not the
row-first `boxesY` the claim promises for ties. -/
theorem C7_tie_returns_column_first_cex :
    Boxes 4 (NewRouteBoxer 1000 routeB) = some (rB3.boxesX, rB3) ∧
    rB3.boxesX.length = rB3.boxesY.length ∧
    rB3.boxesX ≠ rB3.boxesY := by
  refine ⟨by rw [BoxesB]; rfl, rfl, ?_⟩
  intro h
  rw [show rB3.boxesX = [bxW wB 0 0 0 2, bxW wB 1 0 3 3] from rfl,
    show rB3.boxesY = [bxW wB 0 0 3 2, bxW wB 1 3 3 3] from rfl] at h
  have h1 : bxW wB 0 0 0 2 = bxW wB 0 0 3 2 := by
    have h0 := congrArg List.head? h
    simp only [List.head?_cons, Option.some.injEq] at h0
    exact h0
  have h2 := congrArg (fun b => b.ne.lng) h1
  unfold bxW at h2
  dsimp only at h2
  push_cast at h2
  nlinarith [wB_pos]

/-- C7: CORRECTED.  `Boxes` does return the accumulator with fewer boxes, but
the comparison is `len(boxesX) <= len(boxesY)`, so a tie is resolved in favour
of the column-first accumulator `boxesX`, not the row-first one. -/
theorem C7_fewer_boxes_ties_column_first (fuel : ℕ) (r : RouteBoxer)
    (res : List Bound) (r3 : RouteBoxer) (h : Boxes fuel r = some (res, r3)) :
    res = (if r3.boxesX.length ≤ r3.boxesY.length then r3.boxesX else r3.boxesY) ∧
    res.length ≤ r3.boxesX.length ∧ res.length ≤ r3.boxesY.length := by
  unfold Boxes at h
  dsimp only at h
  cases hF : FindIntersectingCells (buildGrid fuel r) with
  | none =>
    rw [hF] at h
    exact Option.noConfusion h
  | some r2 =>
    rw [hF] at h
    dsimp only at h
    injection h with h1
    injection h1 with hres hr3
    subst hres
    subst hr3
    refine ⟨rfl, ?_, ?_⟩ <;> split <;> omega

theorem C7_fewer_boxes_ties_column_first_witness :
    (([bxW wB 0 0 0 2, bxW wB 1 0 3 3] : List Bound) =
      if rB3.boxesX.length ≤ rB3.boxesY.length then rB3.boxesX else rB3.boxesY) ∧
    ([bxW wB 0 0 0 2, bxW wB 1 0 3 3] : List Bound).length ≤ rB3.boxesX.length ∧
    ([bxW wB 0 0 0 2, bxW wB 1 0 3 3] : List Bound).length ≤ rB3.boxesY.length :=
  C7_fewer_boxes_ties_column_first 4 (NewRouteBoxer 1000 routeB)
    [bxW wB 0 0 0 2, bxW wB 1 0 3 3] rB3 BoxesB

/-! ### Frame and accumulation lemmas (C10) -/

lemma growNorth_extends (c : Point) (range ne : ℝ) :
    ∀ fuel i acc, ∃ post, growNorth c range ne fuel i acc = acc ++ post := by
  intro fuel
  induction fuel with
  | zero =>
    intro i acc
    exact ⟨[], (List.append_nil acc).symm⟩
  | succ n ih =>
    intro i acc
    by_cases hc : acc.getD (i - 2) 0 < ne
    · obtain ⟨post, hp⟩ :=
        ih (i + 1) (acc ++ [(RhumbDestinationPoint c 0 (range * (i : ℝ))).lat])
      exact ⟨[(RhumbDestinationPoint c 0 (range * (i : ℝ))).lat] ++ post,
        by rw [growNorth_of_lt hc, hp, List.append_assoc]⟩
    · exact ⟨[], by rw [growNorth_of_not _ hc, List.append_nil]⟩

lemma growSouth_extends (c : Point) (range sw : ℝ) :
    ∀ fuel i1 acc, ∃ pre, growSouth c range sw fuel i1 acc = pre ++ acc := by
  intro fuel
  induction fuel with
  | zero =>
    intro i1 acc
    exact ⟨[], rfl⟩
  | succ n ih =>
    intro i1 acc
    by_cases hc : sw < acc.getD 1 0
    · obtain ⟨pre, hp⟩ :=
        ih (i1 + 1) ((RhumbDestinationPoint c 180 (range * (i1 : ℝ))).lat :: acc)
      exact ⟨pre ++ [(RhumbDestinationPoint c 180 (range * (i1 : ℝ))).lat],
        by rw [growSouth_of_lt hc, hp, List.append_cons]⟩
    · exact ⟨[], by rw [growSouth_of_not _ hc]; rfl⟩

lemma growEast_extends (c : Point) (range ne : ℝ) :
    ∀ fuel i2 acc, ∃ post, growEast c range ne fuel i2 acc = acc ++ post := by
  intro fuel
  induction fuel with
  | zero =>
    intro i2 acc
    exact ⟨[], (List.append_nil acc).symm⟩
  | succ n ih =>
    intro i2 acc
    by_cases hc : acc.getD (i2 - 2) 0 < ne
    · obtain ⟨post, hp⟩ :=
        ih (i2 + 1) (acc ++ [(RhumbDestinationPoint c 90 (range * (i2 : ℝ))).lng])
      exact ⟨[(RhumbDestinationPoint c 90 (range * (i2 : ℝ))).lng] ++ post,
        by rw [growEast_of_lt hc, hp, List.append_assoc]⟩
    · exact ⟨[], by rw [growEast_of_not _ hc, List.append_nil]⟩

lemma growWest_extends (c : Point) (range sw : ℝ) :
    ∀ fuel i3 acc, ∃ pre, growWest c range sw fuel i3 acc = pre ++ acc := by
  intro fuel
  induction fuel with
  | zero =>
    intro i3 acc
    exact ⟨[], rfl⟩
  | succ n ih =>
    intro i3 acc
    by_cases hc : sw < acc.getD 1 0
    · obtain ⟨pre, hp⟩ :=
        ih (i3 + 1) ((RhumbDestinationPoint c 270 (range * (i3 : ℝ))).lng :: acc)
      exact ⟨pre ++ [(RhumbDestinationPoint c 270 (range * (i3 : ℝ))).lng],
        by rw [growWest_of_lt hc, hp, List.append_cons]⟩
    · exact ⟨[], by rw [growWest_of_not _ hc]; rfl⟩

/-- The old latitude lines survive `buildGrid` as a contiguous infix: the
north loop appends after them and the south loop prepends before them. -/
lemma buildGrid_latGrid_extends (fuel : ℕ) (r : RouteBoxer) :
    ∃ pre post, (buildGrid fuel r).latGrid = pre ++ r.latGrid ++ post := by
  obtain ⟨p1, h1⟩ := growNorth_extends (boundCenter (pointSetBound r.vertices))
    r.distanceRange (pointSetBound r.vertices).ne.lat fuel 2
    (r.latGrid ++ [(boundCenter (pointSetBound r.vertices)).lat,
      (RhumbDestinationPoint (boundCenter (pointSetBound r.vertices)) 0
        r.distanceRange).lat])
  obtain ⟨p2, h2⟩ := growSouth_extends (boundCenter (pointSetBound r.vertices))
    r.distanceRange (pointSetBound r.vertices).sw.lat fuel 1
    (growNorth (boundCenter (pointSetBound r.vertices)) r.distanceRange
      (pointSetBound r.vertices).ne.lat fuel 2
      (r.latGrid ++ [(boundCenter (pointSetBound r.vertices)).lat,
        (RhumbDestinationPoint (boundCenter (pointSetBound r.vertices)) 0
          r.distanceRange).lat]))
  refine ⟨p2, [(boundCenter (pointSetBound r.vertices)).lat,
    (RhumbDestinationPoint (boundCenter (pointSetBound r.vertices)) 0
      r.distanceRange).lat] ++ p1, ?_⟩
  show growSouth (boundCenter (pointSetBound r.vertices)) r.distanceRange
    (pointSetBound r.vertices).sw.lat fuel 1
    (growNorth (boundCenter (pointSetBound r.vertices)) r.distanceRange
      (pointSetBound r.vertices).ne.lat fuel 2
      (r.latGrid ++ [(boundCenter (pointSetBound r.vertices)).lat,
        (RhumbDestinationPoint (boundCenter (pointSetBound r.vertices)) 0
          r.distanceRange).lat])) = _
  rw [h2, h1]
  simp [List.append_assoc]

/-- The old longitude lines survive `buildGrid` as a contiguous infix. -/
lemma buildGrid_lngGrid_extends (fuel : ℕ) (r : RouteBoxer) :
    ∃ pre post, (buildGrid fuel r).lngGrid = pre ++ r.lngGrid ++ post := by
  obtain ⟨p1, h1⟩ := growEast_extends (boundCenter (pointSetBound r.vertices))
    r.distanceRange (pointSetBound r.vertices).ne.lng fuel 2
    (r.lngGrid ++ [(boundCenter (pointSetBound r.vertices)).lng,
      (RhumbDestinationPoint (boundCenter (pointSetBound r.vertices)) 90
        r.distanceRange).lng])
  obtain ⟨p2, h2⟩ := growWest_extends (boundCenter (pointSetBound r.vertices))
    r.distanceRange (pointSetBound r.vertices).sw.lng fuel 1
    (growEast (boundCenter (pointSetBound r.vertices)) r.distanceRange
      (pointSetBound r.vertices).ne.lng fuel 2
      (r.lngGrid ++ [(boundCenter (pointSetBound r.vertices)).lng,
        (RhumbDestinationPoint (boundCenter (pointSetBound r.vertices)) 90
          r.distanceRange).lng]))
  refine ⟨p2, [(boundCenter (pointSetBound r.vertices)).lng,
    (RhumbDestinationPoint (boundCenter (pointSetBound r.vertices)) 90
      r.distanceRange).lng] ++ p1, ?_⟩
  show growWest (boundCenter (pointSetBound r.vertices)) r.distanceRange
    (pointSetBound r.vertices).sw.lng fuel 1
    (growEast (boundCenter (pointSetBound r.vertices)) r.distanceRange
      (pointSetBound r.vertices).ne.lng fuel 2
      (r.lngGrid ++ [(boundCenter (pointSetBound r.vertices)).lng,
        (RhumbDestinationPoint (boundCenter (pointSetBound r.vertices)) 90
          r.distanceRange).lng])) = _
  rw [h2, h1]
  simp [List.append_assoc]

/-- `FindIntersectingCells` only rewrites the coverage grid. -/
lemma FIC_frame {r1 r2 : RouteBoxer} (h : FindIntersectingCells r1 = some r2) :
    r2.latGrid = r1.latGrid ∧ r2.lngGrid = r1.lngGrid ∧ r2.boxesX = r1.boxesX ∧
    r2.boxesY = r1.boxesY ∧ r2.vertices = r1.vertices ∧
    r2.distanceRange = r1.distanceRange ∧ r2.gridW = r1.gridW ∧ r2.gridH = r1.gridH := by
  unfold FindIntersectingCells at h
  cases hv : r1.vertices with
  | nil =>
    rw [hv] at h
    exact Option.noConfusion h
  | cons v0 rest =>
    rw [hv] at h
    dsimp only at h
    injection h with h1
    rw [← h1]
    exact ⟨rfl, rfl, rfl, rfl, rfl, rfl, rfl, rfl⟩

lemma mergeBoxesY_length (box : Bound) :
    ∀ acc : List Bound, acc.length ≤ (mergeBoxesY acc box).length := by
  intro acc
  induction acc with
  | nil => rw [mergeBoxesY_nil]; exact Nat.zero_le _
  | cons b rest ih =>
    by_cases hc : |b.ne.lat - box.sw.lat| < 0.001 ∧ |b.sw.lng - box.sw.lng| < 0.001 ∧
        |b.ne.lng - box.ne.lng| < 0.001
    · rw [mergeBoxesY_hit hc]
      exact le_refl _
    · rw [mergeBoxesY_miss hc]
      simp only [List.length_cons]
      omega

lemma mergeBoxesX_length (box : Bound) :
    ∀ acc : List Bound, acc.length ≤ (mergeBoxesX acc box).length := by
  intro acc
  induction acc with
  | nil => rw [mergeBoxesX_nil]; exact Nat.zero_le _
  | cons b rest ih =>
    by_cases hc : |b.ne.lng - box.sw.lng| < 0.001 ∧ |b.sw.lat - box.sw.lat| < 0.001 ∧
        |b.ne.lat - box.ne.lat| < 0.001
    · rw [mergeBoxesX_hit hc]
      exact le_refl _
    · rw [mergeBoxesX_miss hc]
      simp only [List.length_cons]
      omega

lemma mergeBoxesYOpt_length (acc : List Bound) :
    ∀ o : Option Bound, acc.length ≤ (mergeBoxesYOpt acc o).length
  | none => le_refl _
  | some box => mergeBoxesY_length box acc

lemma mergeBoxesXOpt_length (acc : List Bound) :
    ∀ o : Option Bound, acc.length ≤ (mergeBoxesXOpt acc o).length
  | none => le_refl _
  | some box => mergeBoxesX_length box acc

lemma rowScanX_length (r : RouteBoxer) (y : ℤ) :
    ∀ n x (s : Option Bound × List Bound),
      s.2.length ≤ (rowScanX r y n x s).2.length := by
  intro n
  induction n with
  | zero =>
    intro x s
    exact le_refl _
  | succ m ih =>
    intro x s
    obtain ⟨cur, acc⟩ := s
    cases hb : r.grid x y with
    | true =>
      cases cur with
      | some cb =>
        rw [rowScanX_true_some hb]
        exact ih (x + 1) (some (extendB cb (getCellBounds r (x, y)).ne), acc)
      | none =>
        rw [rowScanX_true_none hb]
        exact ih (x + 1) (some (getCellBounds r (x, y)), acc)
    | false =>
      rw [rowScanX_false hb]
      exact le_trans (mergeBoxesYOpt_length acc cur)
        (ih (x + 1) (none, mergeBoxesYOpt acc cur))

lemma colScanY_length (r : RouteBoxer) (x : ℤ) :
    ∀ n y (s : Option Bound × List Bound),
      s.2.length ≤ (colScanY r x n y s).2.length := by
  intro n
  induction n with
  | zero =>
    intro y s
    exact le_refl _
  | succ m ih =>
    intro y s
    obtain ⟨cur, acc⟩ := s
    cases hb : r.grid x y with
    | true =>
      cases cur with
      | some cb =>
        rw [colScanY_true_some hb]
        exact ih (y + 1) (some (extendB cb (getCellBounds r (x, y)).ne), acc)
      | none =>
        rw [colScanY_true_none hb]
        exact ih (y + 1) (some (getCellBounds r (x, y)), acc)
    | false =>
      rw [colScanY_false hb]
      exact le_trans (mergeBoxesXOpt_length acc cur)
        (ih (y + 1) (none, mergeBoxesXOpt acc cur))

lemma rowPass_length (r : RouteBoxer) (y : ℤ) (acc : List Bound) :
    acc.length ≤ (rowPass r y acc).length := by
  unfold rowPass
  exact le_trans (rowScanX_length r y r.gridW 0 (none, acc))
    (mergeBoxesYOpt_length _ _)

lemma colPass_length (r : RouteBoxer) (x : ℤ) (acc : List Bound) :
    acc.length ≤ (colPass r x acc).length := by
  unfold colPass
  exact le_trans (colScanY_length r x r.gridH 0 (none, acc))
    (mergeBoxesXOpt_length _ _)

lemma rowsPass_length (r : RouteBoxer) :
    ∀ n y (acc : List Bound), acc.length ≤ (rowsPass r n y acc).length := by
  intro n
  induction n with
  | zero =>
    intro y acc
    exact le_refl _
  | succ m ih =>
    intro y acc
    rw [rowsPass_succ]
    exact le_trans (rowPass_length r y acc) (ih (y + 1) _)

lemma colsPass_length (r : RouteBoxer) :
    ∀ n x (acc : List Bound), acc.length ≤ (colsPass r n x acc).length := by
  intro n
  induction n with
  | zero =>
    intro x acc
    exact le_refl _
  | succ m ih =>
    intro x acc
    rw [colsPass_succ]
    exact le_trans (colPass_length r x acc) (ih (x + 1) _)

/-- C10: CONFIRMED.  `Boxes` never resets the receiver's accumulated state:
the previous grid lines survive as a contiguous infix of the new line lists
(the south/west loops prepend, the north/east loops append), the box
accumulators feed into the merge passes and so never shrink, the vertices and
distance are untouched, and the coverage grid dimensions are reallocated from
the then-current line counts.  Hence a second call adds its grid lines and
boxes onto the first call's state rather than starting from empty. -/
theorem C10_state_accumulates (fuel : ℕ) (r : RouteBoxer) (res : List Bound)
    (r2 : RouteBoxer) (h : Boxes fuel r = some (res, r2)) :
    (∃ pre post, r2.latGrid = pre ++ r.latGrid ++ post) ∧
    (∃ pre post, r2.lngGrid = pre ++ r.lngGrid ++ post) ∧
    r.boxesY.length ≤ r2.boxesY.length ∧
    r.boxesX.length ≤ r2.boxesX.length ∧
    r2.vertices = r.vertices ∧
    r2.distanceRange = r.distanceRange ∧
    r2.gridH = r2.latGrid.length ∧
    r2.gridW = r2.lngGrid.length := by
  unfold Boxes at h
  dsimp only at h
  cases hF : FindIntersectingCells (buildGrid fuel r) with
  | none =>
    rw [hF] at h
    exact Option.noConfusion h
  | some r1 =>
    rw [hF] at h
    dsimp only at h
    injection h with h1
    injection h1 with hres hr2
    subst hr2
    obtain ⟨hlat, hlng, hbx, hby, hv, hd, hw, hh⟩ := FIC_frame hF
    refine ⟨?_, ?_, ?_, ?_, ?_, ?_, ?_, ?_⟩
    · rw [show (mergeIntersectingCells r1).latGrid = r1.latGrid from rfl, hlat]
      exact buildGrid_latGrid_extends fuel r
    · rw [show (mergeIntersectingCells r1).lngGrid = r1.lngGrid from rfl, hlng]
      exact buildGrid_lngGrid_extends fuel r
    · rw [show (mergeIntersectingCells r1).boxesY =
          rowsPass r1 r1.gridH 0 r1.boxesY from rfl]
      rw [show r.boxesY = r1.boxesY from by
        rw [hby]; rfl]
      exact rowsPass_length r1 r1.gridH 0 r1.boxesY
    · rw [show (mergeIntersectingCells r1).boxesX =
          colsPass r1 r1.gridW 0 r1.boxesX from rfl]
      rw [show r.boxesX = r1.boxesX from by
        rw [hbx]; rfl]
      exact colsPass_length r1 r1.gridW 0 r1.boxesX
    · rw [show (mergeIntersectingCells r1).vertices = r1.vertices from rfl, hv]
      rfl
    · rw [show (mergeIntersectingCells r1).distanceRange = r1.distanceRange from rfl, hd]
      rfl
    · rw [show (mergeIntersectingCells r1).gridH = r1.gridH from rfl,
        show (mergeIntersectingCells r1).latGrid = r1.latGrid from rfl, hh, hlat]
      rfl
    · rw [show (mergeIntersectingCells r1).gridW = r1.gridW from rfl,
        show (mergeIntersectingCells r1).lngGrid = r1.lngGrid from rfl, hw, hlng]
      rfl

/-- Post-merge state on route A, named for the C10 witness. -/
def rA3 : RouteBoxer :=
  { rA2 with boxesY := [bxW wA 0 0 3 3], boxesX := [bxW wA 0 0 3 3] }

lemma BoxesA3 : Boxes 4 (NewRouteBoxer 50 routeA) = some ([bxW wA 0 0 3 3], rA3) :=
  BoxesA

theorem C10_state_accumulates_witness :
    (∃ pre post, rA3.latGrid = pre ++ (NewRouteBoxer 50 routeA).latGrid ++ post) ∧
    (∃ pre post, rA3.lngGrid = pre ++ (NewRouteBoxer 50 routeA).lngGrid ++ post) ∧
    (NewRouteBoxer 50 routeA).boxesY.length ≤ rA3.boxesY.length ∧
    (NewRouteBoxer 50 routeA).boxesX.length ≤ rA3.boxesX.length ∧
    rA3.vertices = (NewRouteBoxer 50 routeA).vertices ∧
    rA3.distanceRange = (NewRouteBoxer 50 routeA).distanceRange ∧
    rA3.gridH = rA3.latGrid.length ∧
    rA3.gridW = rA3.lngGrid.length :=
  C10_state_accumulates 4 (NewRouteBoxer 50 routeA) [bxW wA 0 0 3 3] rA3 BoxesA3

end Routeboxer

end
